import Mathlib

/-!
# Pod specification assembly of the StarRocks Kubernetes operator

A shallow embedding of `pkg/k8sutils/templates/pod/spec.go`, of
`pkg/k8sutils/templates/pod/mount_volumes.go` and of the decision logic of
`scripts/format-values/main.go`, followed by theorems about the embedded
functions.

Conventions of the embedding

* A Go `map[string]bool` that the code only ever indexes is a function
  `String → Bool`; a key that was never stored reads as `false`, as in Go.
* Go `int32` and `int64` values are integers; the one arithmetic operation of
  the file, the `int32` division of `completeProbe`, wraps explicitly.
* A nil pointer or an unset optional field is `none`.
* Go strings are Lean strings.  `len` and slicing count bytes in Go and
  characters here; the two agree on ASCII text, which is what the content hash
  cut by `getVolumeName` is made of.
* In `Do` of the migration tool the reader is a string of unread bytes;
  `viper.ReadConfig` reads it to its end, so the `ioutil.ReadAll` after it
  gets no bytes.
* Functions, constants and methods that the two files import from packages
  outside of them (`rutils`, `hash`, the `v1` API types) are parameters, or
  are declared with a comment that says where the value comes from.
-/

set_option linter.dupNamespace false

namespace Pod

/-! ## Go maps used as sets -/

/-- A Go `map[string]bool`, read by indexing only. -/
abbrev StringSet := String → Bool

/-- The map `make(map[string]bool)`. -/
def StringSet.empty : StringSet := fun _ => false

/-- The assignment `m[k] = true`. -/
def StringSet.insert (m : StringSet) (k : String) : StringSet :=
  fun x => if x = k then true else m x

/-! ## Kubernetes core types (the fields the code touches) -/

structure ObjectFieldSelector where
  APIVersion : String := ""
  FieldPath : String
deriving DecidableEq, Repr

structure KeySelector where
  Name : String
  Key : String
deriving DecidableEq, Repr

structure EnvVarSource where
  FieldRef : Option ObjectFieldSelector := none
  ConfigMapKeyRef : Option KeySelector := none
  SecretKeyRef : Option KeySelector := none
deriving DecidableEq, Repr

structure EnvVar where
  Name : String
  Value : String := ""
  ValueFrom : Option EnvVarSource := none
deriving DecidableEq, Repr

structure ContainerPort where
  Name : String
  ContainerPort : Int
  Protocol : String := ""
deriving DecidableEq, Repr

/-- The constant `corev1.ProtocolTCP`. -/
def ProtocolTCP : String := "TCP"

structure HTTPGetAction where
  Path : String
  Port : Int
deriving DecidableEq, Repr

structure ProbeHandler where
  HTTPGet : Option HTTPGetAction := none
deriving DecidableEq, Repr

structure Probe where
  ProbeHandler : ProbeHandler := {}
  PeriodSeconds : Int := 0
  FailureThreshold : Int := 0
deriving DecidableEq, Repr

structure VolumeSource where
  ConfigMap : Option String := none
  Secret : Option String := none
  PersistentVolumeClaim : Option String := none
deriving DecidableEq, Repr

structure Volume where
  Name : String
  VolumeSource : VolumeSource := {}
deriving DecidableEq, Repr

structure VolumeMount where
  Name : String
  MountPath : String
  SubPath : String := ""
deriving DecidableEq, Repr

structure SecurityContext where
  RunAsUser : Option Int
  RunAsGroup : Option Int
  RunAsNonRoot : Option Bool
  AllowPrivilegeEscalation : Option Bool
  ReadOnlyRootFilesystem : Option Bool
deriving DecidableEq, Repr

/-- The type `corev1.PodSecurityContext`, with the fields the file sets. -/
structure Corev1.PodSecurityContext where
  FSGroup : Option Int := none
  FSGroupChangePolicy : Option String := none
deriving DecidableEq, Repr

/-- The constant `corev1.FSGroupChangeOnRootMismatch`. -/
def FSGroupChangeOnRootMismatch : String := "OnRootMismatch"

/-- The type `corev1.Affinity`.  The file hands the pointer on without reading
it, so its three members are kept as uninterpreted text. -/
structure Affinity where
  NodeAffinity : Option String := none
  PodAffinity : Option String := none
  PodAntiAffinity : Option String := none
deriving DecidableEq, Repr

structure Toleration where
  Key : String := ""
  Operator : String := ""
  Value : String := ""
  Effect : String := ""
  TolerationSeconds : Option Int := none
deriving DecidableEq, Repr

structure LocalObjectReference where
  Name : String
deriving DecidableEq, Repr

structure HostAlias where
  IP : String
  Hostnames : List String := []
deriving DecidableEq, Repr

/-- The type `corev1.Container`, with the fields the package fills from the
functions of the file. -/
structure Container where
  Name : String
  Image : String := ""
  Env : List EnvVar := []
  Ports : List ContainerPort := []
  VolumeMounts : List VolumeMount := []
  SecurityContext : Option SecurityContext := none
deriving DecidableEq, Repr

/-- The type `corev1.PodSpec`, with the fields `Spec` sets.  A Go
`map[string]string` that is only handed on is a list of pairs. -/
structure PodSpec where
  Containers : List Container
  Volumes : List Volume
  ServiceAccountName : String
  TerminationGracePeriodSeconds : Option Int
  Affinity : Option Affinity
  Tolerations : List Toleration
  ImagePullSecrets : List LocalObjectReference
  NodeSelector : List (String × String)
  HostAliases : List HostAlias
  SchedulerName : String
  AutomountServiceAccountToken : Option Bool
deriving DecidableEq, Repr

/-! ## The operator's API types (`v1`) -/

/-- The type `v1.MountInfo`. -/
structure MountInfo where
  Name : String
  MountPath : String
  SubPath : String := ""
deriving DecidableEq, Repr

/-- In Go: `type ConfigMapReference MountInfo`. -/
abbrev ConfigMapReference := MountInfo

/-- In Go: `type SecretReference MountInfo`. -/
abbrev SecretReference := MountInfo

/-- The type `v1.StorageVolume`, with the fields `MountStorageVolumes` reads. -/
structure StorageVolume where
  Name : String
  MountPath : String
  SubPath : String := ""
deriving DecidableEq, Repr

/-- The dynamic type behind a `v1.SpecInterface` value, as far as the type
switches of the file tell the types apart. -/
inductive SpecKind where
  | StarRocksFeSpec
  | StarRocksBeSpec
  | StarRocksCnSpec
  | StarRocksFeProxySpec
  | other
deriving DecidableEq, Repr

/-- A `v1.SpecInterface` value: its dynamic type and what its methods return. -/
structure SpecInterface where
  kind : SpecKind
  GetStorageVolumes : List StorageVolume := []
  GetRunAsNonRoot : Option Int × Option Int := (none, none)
  GetServiceAccount : String := ""
  GetAffinity : Option Affinity := none
  GetTolerations : List Toleration := []
  GetImagePullSecrets : List LocalObjectReference := []
  GetNodeSelector : List (String × String) := []
  GetHostAliases : List HostAlias := []
  GetSchedulerName : String := ""
deriving DecidableEq, Repr

/-- The type `v1.ConfigMapInfo`. -/
structure ConfigMapInfo where
  ConfigMapName : String := ""
  ResolveKey : String := ""
deriving DecidableEq, Repr

/-- The type `v1.SecretInfo`. -/
structure SecretInfo where
  Name : String
  MountPath : String
deriving DecidableEq, Repr

/-- Modelled from the spec: the constant `v1.COMPONENT_NAME` is declared
outside the two files; the spec writes the variable as COMPONENT_NAME. -/
def COMPONENT_NAME : String := "COMPONENT_NAME"

/-- Modelled from the spec: the constant `v1.FE_SERVICE_NAME` is declared
outside the two files; the spec writes the variable as FE_SERVICE_NAME. -/
def FE_SERVICE_NAME : String := "FE_SERVICE_NAME"

/-- The role markers `v1.DEFAULT_FE`, `v1.DEFAULT_BE` and `v1.DEFAULT_CN`,
declared outside the two files. -/
structure V1 where
  DEFAULT_FE : String
  DEFAULT_BE : String
  DEFAULT_CN : String

/-- What the file uses of the package `rutils`: the port lookup and the
constants it is called with.  `Config` is the `map[string]interface{}` that
the file hands to `GetPort` without looking inside. -/
structure Rutils (Config : Type) where
  GetPort : Config → String → Int
  HTTP_PORT : String
  RPC_PORT : String
  QUERY_PORT : String
  BE_PORT : String
  WEBSERVER_PORT : String
  HEARTBEAT_SERVICE_PORT : String
  BRPC_PORT : String
  THRIFT_PORT : String
  FE_PORXY_HTTP_PORT_NAME : String
  FE_PROXY_HTTP_PORT : Int

/-- Modelled from the spec: the helper `rutils.GetInt64ptr` is declared outside
the two files; the spec has the termination grace period fixed at 120
seconds, the number `Spec` passes to the helper, so the helper returns a
pointer to its argument. -/
def GetInt64ptr (n : Int) : Option Int := some n

/-! ## Go standard library -/

/-- The pieces of a character list cut at every `sep`. -/
def splitChars (sep : Char) : List Char → List (List Char)
  | [] => [[]]
  | c :: cs =>
    if c = sep then [] :: splitChars sep cs
    else
      match splitChars sep cs with
      | [] => [[c]]
      | p :: ps => (c :: p) :: ps

/-- The call `strings.Split(s, sep)` for a separator of one character. -/
def Split (s : String) (sep : Char) : List String :=
  (splitChars sep s.data).map String.mk

/-- The call `strconv.FormatInt(i, base)`. -/
def FormatInt (i : Int) (base : Nat) : String :=
  if i < 0 then "-" ++ String.mk (Nat.toDigits base i.natAbs)
  else String.mk (Nat.toDigits base i.natAbs)

/-! ## Envs -/

/-- The two variables the closure `addEnv` captures and updates. -/
structure EnvState where
  keys : StringSet
  envs : List EnvVar

/-- The closure `addEnv` of `Envs`. -/
def addEnv (unsupport_envs : StringSet) (st : EnvState) (envVar : EnvVar) : EnvState :=
  if !st.keys envVar.Name && !unsupport_envs envVar.Name then
    { keys := st.keys.insert envVar.Name, envs := st.envs ++ [envVar] }
  else st

/-- The map `unsupport_envs` built from the value of the environment variable
`KUBE_STARROCKS_UNSUPPORTED_ENVS` (the empty string when it is unset). -/
def unsupportEnvs (unsupport_envs_str : String) : StringSet :=
  if unsupport_envs_str ≠ "" then
    (Split unsupport_envs_str ',').foldl (fun m name => m.insert name) StringSet.empty
  else StringSet.empty

/-- The first literal list `Envs` ranges over. -/
def builtinEnvs : List EnvVar :=
  [ { Name := "POD_NAME", ValueFrom := some { FieldRef := some { FieldPath := "metadata.name" } } },
    { Name := "POD_IP", ValueFrom := some { FieldRef := some { FieldPath := "status.podIP" } } },
    { Name := "HOST_IP", ValueFrom := some { FieldRef := some { FieldPath := "status.hostIP" } } },
    { Name := "POD_NAMESPACE",
      ValueFrom := some { FieldRef := some { FieldPath := "metadata.namespace" } } },
    { Name := "HOST_TYPE", Value := "FQDN" } ]

/-- The literal list of the case of the type switch of `Envs` that `kind`
selects; no case matches a type the switch does not list. -/
def roleEnvs {Config : Type} (v1 : V1) (rutils : Rutils Config) (kind : SpecKind)
    (config : Config) (feExternalServiceName namespace_ : String) : List EnvVar :=
  match kind with
  | .StarRocksFeSpec =>
    [ { Name := COMPONENT_NAME, Value := v1.DEFAULT_FE },
      { Name := FE_SERVICE_NAME, Value := feExternalServiceName ++ "." ++ namespace_ } ]
  | .StarRocksBeSpec =>
    [ { Name := COMPONENT_NAME, Value := v1.DEFAULT_BE },
      { Name := FE_SERVICE_NAME, Value := feExternalServiceName },
      { Name := "FE_QUERY_PORT",
        Value := FormatInt (rutils.GetPort config rutils.QUERY_PORT) 10 } ]
  | .StarRocksCnSpec =>
    [ { Name := COMPONENT_NAME, Value := v1.DEFAULT_CN },
      { Name := FE_SERVICE_NAME, Value := feExternalServiceName },
      { Name := "FE_QUERY_PORT",
        Value := FormatInt (rutils.GetPort config rutils.QUERY_PORT) 10 } ]
  | _ => []

/-- The function `Envs`.  `getenv` is what `os.Getenv` returns for
`KUBE_STARROCKS_UNSUPPORTED_ENVS`. -/
def Envs {Config : Type} (v1 : V1) (rutils : Rutils Config) (getenv : String)
    (spec : SpecInterface) (config : Config) (feExternalServiceName namespace_ : String)
    (envs : List EnvVar) : List EnvVar :=
  let keys := envs.foldl (fun keys env => keys.insert env.Name) StringSet.empty
  let unsupport_envs := unsupportEnvs getenv
  let st := builtinEnvs.foldl (addEnv unsupport_envs) { keys := keys, envs := envs }
  let st := (roleEnvs v1 rutils spec.kind config feExternalServiceName namespace_).foldl
    (addEnv unsupport_envs) st
  st.envs

/-! ## Probes -/

/-- The value of the `int32` bit pattern of an integer. -/
def wrapInt32 (x : Int) : Int := (x + 2 ^ 31) % 2 ^ 32 - 2 ^ 31

/-- Go `a / b` on `int32`: the quotient truncated toward zero, wrapped to 32
bits; a zero divisor panics, which is `none`. -/
def divInt32 (a b : Int) : Option Int :=
  if b = 0 then none else some (wrapInt32 (Int.tdiv a b))

/-- The function `getProbe`. -/
def getProbe (port : Int) (path : String) : ProbeHandler :=
  { HTTPGet := some { Path := path, Port := port } }

/-- The function `completeProbe`; `none` is the panic of a division by zero. -/
def completeProbe (failureSeconds : Option Int) (defaultFailureThreshold : Int)
    (defaultPeriodSeconds : Int) (probeHandler : ProbeHandler) : Option Probe :=
  let probe : Probe := {}
  let failureThreshold : Option Int :=
    match failureSeconds with
    | some fs => divInt32 fs defaultPeriodSeconds
    | none => some defaultFailureThreshold
  failureThreshold.map fun ft =>
    { probe with
      FailureThreshold := ft
      PeriodSeconds := defaultPeriodSeconds
      ProbeHandler := probeHandler }

/-- The function `StartupProbe`. -/
def StartupProbe (startupProbeFailureSeconds : Option Int) (port : Int) (path : String) :
    Option Probe :=
  completeProbe startupProbeFailureSeconds 60 5 (getProbe port path)

/-- The function `LivenessProbe`. -/
def LivenessProbe (port : Int) (path : String) : Option Probe :=
  completeProbe none 3 5 (getProbe port path)

/-- The function `ReadinessProbe`. -/
def ReadinessProbe (port : Int) (path : String) : Option Probe :=
  completeProbe none 3 5 (getProbe port path)

/-! ## Volumes and mounts -/

/-- The function `getVolumeName`; `HashObject` is `hash.HashObject`, which
lives outside the two files. -/
def getVolumeName (HashObject : MountInfo → String) (mountInfo : MountInfo) : String :=
  let suffix := HashObject mountInfo
  let suffix := if suffix.length > 4 then String.mk (suffix.data.take 4) else suffix
  mountInfo.Name ++ "-" ++ suffix

/-- The function `MountConfigMaps`. -/
def MountConfigMaps (HashObject : MountInfo → String) (volumes : List Volume)
    (volumeMounts : List VolumeMount) (references : List ConfigMapReference) :
    List Volume × List VolumeMount :=
  references.foldl
    (fun acc reference =>
      let volumeName := getVolumeName HashObject reference
      (acc.1 ++ [{ Name := volumeName, VolumeSource := { ConfigMap := some reference.Name } }],
       acc.2 ++ [{ Name := volumeName, MountPath := reference.MountPath,
                   SubPath := reference.SubPath }]))
    (volumes, volumeMounts)

/-- The function `MountSecrets` of `spec.go`. -/
def MountSecrets (HashObject : MountInfo → String) (volumes : List Volume)
    (volumeMounts : List VolumeMount) (references : List SecretReference) :
    List Volume × List VolumeMount :=
  references.foldl
    (fun acc reference =>
      let volumeName := getVolumeName HashObject reference
      (acc.1 ++ [{ Name := volumeName, VolumeSource := { Secret := some reference.Name } }],
       acc.2 ++ [{ Name := volumeName, MountPath := reference.MountPath,
                   SubPath := reference.SubPath }]))
    (volumes, volumeMounts)

/-- The three variables the loop of `MountStorageVolumes` updates. -/
structure StorageState where
  volumes : List Volume
  volumeMounts : List VolumeMount
  vexist : StringSet

/-- The function `MountStorageVolumes`. -/
def MountStorageVolumes (spec : SpecInterface) : StorageState :=
  spec.GetStorageVolumes.foldl
    (fun st sv =>
      { vexist := st.vexist.insert sv.MountPath
        volumeMounts := st.volumeMounts ++
          [{ Name := sv.Name, MountPath := sv.MountPath, SubPath := sv.SubPath }]
        volumes := st.volumes ++
          [{ Name := sv.Name, VolumeSource := { PersistentVolumeClaim := some sv.Name } }] })
    { volumes := [], volumeMounts := [], vexist := StringSet.empty }

/-! ## Ports -/

/-- The function `Ports`. -/
def Ports {Config : Type} (rutils : Rutils Config) (spec : SpecInterface) (config : Config) :
    List ContainerPort :=
  let ports : List ContainerPort := []
  match spec.kind with
  | .StarRocksFeSpec =>
    ports ++
      [ { Name := "http-port", ContainerPort := rutils.GetPort config rutils.HTTP_PORT,
          Protocol := ProtocolTCP },
        { Name := "rpc-port", ContainerPort := rutils.GetPort config rutils.RPC_PORT,
          Protocol := ProtocolTCP },
        { Name := "query-port", ContainerPort := rutils.GetPort config rutils.QUERY_PORT,
          Protocol := ProtocolTCP } ]
  | .StarRocksBeSpec =>
    ports ++
      [ { Name := "be-port", ContainerPort := rutils.GetPort config rutils.BE_PORT },
        { Name := "webserver-port",
          ContainerPort := rutils.GetPort config rutils.WEBSERVER_PORT,
          Protocol := ProtocolTCP },
        { Name := "heartbeat-port",
          ContainerPort := rutils.GetPort config rutils.HEARTBEAT_SERVICE_PORT,
          Protocol := ProtocolTCP },
        { Name := "brpc-port", ContainerPort := rutils.GetPort config rutils.BRPC_PORT,
          Protocol := ProtocolTCP } ]
  | .StarRocksCnSpec =>
    ports ++
      [ { Name := "thrift-port", ContainerPort := rutils.GetPort config rutils.THRIFT_PORT,
          Protocol := ProtocolTCP },
        { Name := "webserver-port",
          ContainerPort := rutils.GetPort config rutils.WEBSERVER_PORT,
          Protocol := ProtocolTCP },
        { Name := "heartbeat-port",
          ContainerPort := rutils.GetPort config rutils.HEARTBEAT_SERVICE_PORT,
          Protocol := ProtocolTCP },
        { Name := "brpc-port", ContainerPort := rutils.GetPort config rutils.BRPC_PORT,
          Protocol := ProtocolTCP } ]
  | .StarRocksFeProxySpec =>
    ports ++
      [ { Name := rutils.FE_PORXY_HTTP_PORT_NAME, ContainerPort := rutils.FE_PROXY_HTTP_PORT,
          Protocol := ProtocolTCP } ]
  | .other => ports

/-! ## Security context -/

/-- The function `ContainerSecurityContext`. -/
def ContainerSecurityContext (spec : SpecInterface) : SecurityContext :=
  let userId := spec.GetRunAsNonRoot.1
  let groupId := spec.GetRunAsNonRoot.2
  let runAsNonRoot : Option Bool :=
    match userId with
    | some u => if u ≠ 0 then some true else none
    | none => none
  { RunAsUser := userId
    RunAsGroup := groupId
    RunAsNonRoot := runAsNonRoot
    AllowPrivilegeEscalation := some false
    ReadOnlyRootFilesystem := some false }

/-- The function `PodSecurityContext`. -/
def PodSecurityContext (spec : SpecInterface) : Corev1.PodSecurityContext :=
  let groupId := spec.GetRunAsNonRoot.2
  let fsGroup : Option Int :=
    match groupId with
    | some g => some g
    | none => none
  let onRootMismatch := FSGroupChangeOnRootMismatch
  { FSGroupChangePolicy := some onRootMismatch
    FSGroup := fsGroup }

/-! ## Pod spec -/

/-- The function `Spec`. -/
def Spec (spec : SpecInterface) (defaultServiceAccount : String) (container : Container)
    (volumes : List Volume) : PodSpec :=
  let podSpec : PodSpec :=
    { Containers := [container]
      Volumes := volumes
      ServiceAccountName := spec.GetServiceAccount
      TerminationGracePeriodSeconds := GetInt64ptr 120
      Affinity := spec.GetAffinity
      Tolerations := spec.GetTolerations
      ImagePullSecrets := spec.GetImagePullSecrets
      NodeSelector := spec.GetNodeSelector
      HostAliases := spec.GetHostAliases
      SchedulerName := spec.GetSchedulerName
      AutomountServiceAccountToken := some false }
  if podSpec.ServiceAccountName = "" then
    { podSpec with ServiceAccountName := defaultServiceAccount }
  else podSpec

/-! ## Legacy mounts -/

/-- The function `MountConfigMapInfo`. -/
def MountConfigMapInfo (volumes : List Volume) (volumeMounts : List VolumeMount)
    (cmInfo : ConfigMapInfo) (mountPath : String) : List Volume × List VolumeMount :=
  if cmInfo.ConfigMapName ≠ "" ∧ cmInfo.ResolveKey ≠ "" then
    (volumes ++
       [{ Name := cmInfo.ConfigMapName,
          VolumeSource := { ConfigMap := some cmInfo.ConfigMapName } }],
     volumeMounts ++ [{ Name := cmInfo.ConfigMapName, MountPath := mountPath }])
  else (volumes, volumeMounts)

namespace MountVolumes

/-- The function `MountSecrets` of `mount_volumes.go`. -/
def MountSecrets (volumes : List Volume) (volumeMounts : List VolumeMount)
    (secrets : List SecretInfo) : List Volume × List VolumeMount :=
  secrets.foldl
    (fun acc secret =>
      (acc.1 ++ [{ Name := secret.Name, VolumeSource := { Secret := some secret.Name } }],
       acc.2 ++ [{ Name := secret.Name, MountPath := secret.MountPath }]))
    (volumes, volumeMounts)

/-- The function `MountConfigMap` of `mount_volumes.go`. -/
def MountConfigMap (volumes : List Volume) (volumeMounts : List VolumeMount)
    (cmInfo : ConfigMapInfo) (mountPath : String) : List Volume × List VolumeMount :=
  if cmInfo.ConfigMapName ≠ "" ∧ cmInfo.ResolveKey ≠ "" then
    (volumes ++
       [{ Name := cmInfo.ConfigMapName,
          VolumeSource := { ConfigMap := some cmInfo.ConfigMapName } }],
     volumeMounts ++ [{ Name := cmInfo.ConfigMapName, MountPath := mountPath }])
  else (volumes, volumeMounts)

end MountVolumes

/-- Every mount of the list has a volume of the same name in the volume list. -/
def Paired (volumes : List Volume) (volumeMounts : List VolumeMount) : Prop :=
  ∀ m ∈ volumeMounts, ∃ v ∈ volumes, v.Name = m.Name

instance (volumes : List Volume) (volumeMounts : List VolumeMount) :
    Decidable (Paired volumes volumeMounts) := by
  unfold Paired
  infer_instance

/-- White space as Go's `unicode.IsSpace` has it: tab, line feed, vertical tab,
form feed, carriage return, space, U+0085, U+00A0, and the characters with the
Unicode property White_Space beyond Latin-1 (U+1680, U+2000 to U+200A, U+2028,
U+2029, U+202F, U+205F, U+3000). -/
def isSpace (c : Char) : Bool :=
  (9 ≤ c.toNat && c.toNat ≤ 13) || c.toNat == 32 || c.toNat == 0x85 || c.toNat == 0xA0 ||
  c.toNat == 0x1680 || (0x2000 ≤ c.toNat && c.toNat ≤ 0x200A) || c.toNat == 0x2028 ||
  c.toNat == 0x2029 || c.toNat == 0x202F || c.toNat == 0x205F || c.toNat == 0x3000

/-- Every character of the string is white space; the empty string is blank. -/
def Blank (s : String) : Prop := ∀ c ∈ s.data, isSpace c = true

instance (s : String) : Decidable (Blank s) := by
  unfold Blank
  infer_instance

end Pod

/-! ## The values.yaml migration tool (`scripts/format-values/main.go`) -/

namespace FormatValues

/-- A value as `yaml.Unmarshal` stores it in an `interface{}`; `null` is the
nil interface. -/
inductive Yaml where
  | null
  | scalar (text : String)
  | seq (items : List Yaml)
  | map (entries : List (String × Yaml))

/-- The test `v == nil`. -/
def Yaml.isNil : Yaml → Bool
  | .null => true
  | _ => false

def NEW_VERSION : String := "v1.8.0"

def _operator : String := "operator"

def _starrocks : String := "starrocks"

def _starrocksKeys : List String :=
  ["nameOverride", "initPassword", "timeZone", "datadog", "starrocksCluster",
   "starrocksFESpec", "starrocksCnSpec", "starrocksBeSpec", "secrets", "configMaps", "feProxy"]

def _operatorKeys : List String := ["global", "timeZone", "nameOverride", "starrocksOperator"]

/-- Lexicographic order on character lists by code point, which is the order
of the UTF-8 bytes. -/
def lessChars : List Char → List Char → Bool
  | _, [] => false
  | [], _ :: _ => true
  | a :: as, b :: bs =>
    if a.toNat < b.toNat then true
    else if b.toNat < a.toNat then false
    else lessChars as bs

/-- Go `a < b` on strings. -/
def stringLess (a b : String) : Bool := lessChars a.data b.data

/-- Go `a >= b` on strings. -/
def stringGreaterEq (a b : String) : Bool := !stringLess a b

/-- Go `m[key]` on a `map[string]interface{}`: nil for an absent key. -/
def index (m : List (String × Yaml)) (key : String) : Yaml :=
  (m.lookup key).getD Yaml.null

/-- Go `delete(m, key)`. -/
def delete (m : List (String × Yaml)) (key : String) : List (String × Yaml) :=
  m.filter (fun e => e.1 ≠ key)

/-- Go `m[key] = value`. -/
def assign (m : List (String × Yaml)) (key : String) (value : Yaml) : List (String × Yaml) :=
  delete m key ++ [(key, value)]

/-- How a call of `Do` ends. -/
inductive Status where
  | ok
  | error (msg : String)
  | panic
deriving DecidableEq, Repr

/-- What a call of `Do` leaves behind: the bytes in the two writers, and how
the call ended. -/
structure Result where
  w1 : String
  w2 : String
  status : Status
deriving DecidableEq, Repr

/-- The function `Write`: the new content of the writer, and the error if any.
`Marshal` is `yaml.Marshal`. -/
def Write (Marshal : Yaml → Except String String) (w : String) (s : List (String × Yaml))
    (keys : List String) (header : String) : String × Option String :=
  let newS := keys.foldl
    (fun newS key =>
      let value := index s key
      if value.isNil then newS else assign newS key value)
    []
  let output := Yaml.map [(header, Yaml.map newS)]
  match Marshal output with
  | .error e => (w, some e)
  | .ok data => (w ++ data, none)

/-- The call `viper.ReadConfig(reader)`: viper reads the reader to its end
before it parses.  `parse` is the parser of viper, which gives the error if
there is one.  The result is that error and what the reader still holds
after the call, which is nothing. -/
def viperReadConfig (parse : String → Option String) (reader : String) :
    Option String × String :=
  (parse reader, "")

/-- The call `ioutil.ReadAll(reader)`: the bytes the reader still holds, and
the reader after the call. -/
def ReadAll (reader : String) : String × String :=
  (reader, "")

/-- The function `Do`.  `reader` is the bytes the reader holds, `w1` and `w2`
are the contents of the two writers before the call; `parse` is the parser
behind `viper.ReadConfig`, `Unmarshal` is `yaml.Unmarshal` into the empty map
`s`, and `Marshal` is `yaml.Marshal`.  Log output is left out. -/
def Do (parse : String → Option String)
    (Unmarshal : String → Except String (List (String × Yaml)))
    (Marshal : Yaml → Except String String)
    (reader : String) (chartVersion : String) (w1 w2 : String) : Result :=
  match viperReadConfig parse reader with
  | (some e, _) => { w1 := w1, w2 := w2, status := .error e }
  | (none, reader) =>
    let (input, _) := ReadAll reader
    match Unmarshal input with
    | .error e => { w1 := w1, w2 := w2, status := .error e }
    | .ok s =>
      let operator := index s _operator
      let starrocks := index s _starrocks
      if !operator.isNil || !starrocks.isNil then
        if stringGreaterEq chartVersion NEW_VERSION then
          { w1 := w1, w2 := w2, status := .ok }
        else
          match operator with
          | .map mapper =>
            let mapper := delete (delete mapper "timeZone") "nameOverride"
            match Marshal (.map mapper) with
            | .error e => { w1 := w1, w2 := w2, status := .error e }
            | .ok data1 =>
              match Marshal starrocks with
              | .error e => { w1 := w1, w2 := w2, status := .error e }
              | .ok data2 =>
                { w1 := w1 ++ (data1 ++ "\n" ++ data2), w2 := w2, status := .ok }
          | _ => { w1 := w1, w2 := w2, status := .panic }
      else
        if stringLess chartVersion NEW_VERSION then
          { w1 := w1, w2 := w2, status := .ok }
        else
          match Write Marshal w1 s _operatorKeys _operator with
          | (w1, some e) => { w1 := w1, w2 := w2, status := .error e }
          | (w1, none) =>
            match Write Marshal w2 s _starrocksKeys _starrocks with
            | (w2, some e) => { w1 := w1, w2 := w2, status := .error e }
            | (w2, none) => { w1 := w1, w2 := w2, status := .ok }

/-- A parser for concrete evaluations that accepts every file. -/
def sampleParse : String → Option String := fun _ => none

/-- The behaviour of `yaml.Unmarshal` on no bytes: no error, and the map is
left empty.  Other inputs are not modelled and give an error. -/
def sampleUnmarshal (input : String) : Except String (List (String × Yaml)) :=
  if input = "" then .ok [] else .error "not modelled"

/-- A marshaller for concrete evaluations, one line per entry of a map: the
key, then the text of a scalar, a pair of braces for an empty map and three
dots for any other value; a dash for a value that is not a map. -/
def sampleMarshal : Yaml → Except String String
  | .map entries =>
    .ok (String.join (entries.map fun e =>
      e.1 ++ ": " ++
        (match e.2 with
          | .scalar text => text
          | .map [] => "{}"
          | _ => "...") ++ "\n"))
  | _ => .ok "-\n"

/-- The text `vMAJOR.MINOR.PATCH` of three natural numbers. -/
def versionString (major minor patch_ : Nat) : String :=
  "v" ++ toString major ++ "." ++ toString minor ++ "." ++ toString patch_

end FormatValues

namespace Pod

/-! ## Sample values of the parameters -/

/-- Role markers for concrete evaluations. -/
def sampleV1 : V1 := { DEFAULT_FE := "fe", DEFAULT_BE := "be", DEFAULT_CN := "cn" }

/-- A port lookup over an association list, with the port 0 for an absent key,
and key names for concrete evaluations. -/
def sampleRutils : Rutils (List (String × Int)) :=
  { GetPort := fun config key => (config.lookup key).getD 0
    HTTP_PORT := "http_port"
    RPC_PORT := "rpc_port"
    QUERY_PORT := "query_port"
    BE_PORT := "be_port"
    WEBSERVER_PORT := "webserver_port"
    HEARTBEAT_SERVICE_PORT := "heartbeat_service_port"
    BRPC_PORT := "brpc_port"
    THRIFT_PORT := "thrift_port"
    FE_PORXY_HTTP_PORT_NAME := "http-port"
    FE_PROXY_HTTP_PORT := 8080 }

/-- A content hash for concrete evaluations: the three fields, joined. -/
def sampleHash (m : MountInfo) : String := m.MountPath ++ m.SubPath ++ m.Name

/-- A content hash with outputs of fewer than four characters. -/
def shortHash (m : MountInfo) : String := if m.Name = "a" then "b-c" else "c"

/-! ## Lemmas on the standard-library functions -/

/-- In base 10, `FormatInt` is the decimal text of the integer. -/
theorem FormatInt_ten (i : Int) : FormatInt i 10 = toString i := by
  unfold FormatInt
  cases i with
  | ofNat n =>
    have hn : ¬ (Int.ofNat n < 0) := by simp
    rw [if_neg hn]
    rfl
  | negSucc n =>
    have hn : Int.negSucc n < 0 := Int.negSucc_lt_zero n
    rw [if_pos hn]
    rfl

/-- The characters of a string joined by `String.intercalate`. -/
theorem intercalate_go_data (acc sep : String) (l : List String) :
    (String.intercalate.go acc sep l).data =
      acc.data ++ l.flatMap (fun a => sep.data ++ a.data) := by
  induction l generalizing acc with
  | nil => simp [String.intercalate.go]
  | cons a l ih =>
    simp only [String.intercalate.go, ih, String.data_append, List.flatMap_cons,
      List.append_assoc]

/-- The pieces of a character list are never none, and put together again with
the separator between them they give the list back. -/
theorem splitChars_join (sep : Char) (cs : List Char) :
    ∃ q qs, splitChars sep cs = q :: qs ∧ q ++ qs.flatMap (fun a => sep :: a) = cs := by
  induction cs with
  | nil => exact ⟨[], [], rfl, rfl⟩
  | cons c cs ih =>
    obtain ⟨q, qs, h1, h2⟩ := ih
    by_cases hc : c = sep
    · refine ⟨[], q :: qs, ?_, ?_⟩
      · simp [splitChars, hc, h1]
      · simp [List.flatMap_cons, h2, hc]
    · refine ⟨c :: q, qs, ?_, ?_⟩
      · simp [splitChars, hc, h1]
      · simp [h2]

/-- No piece of a character list holds the separator. -/
theorem splitChars_no_sep (sep : Char) (cs : List Char) :
    ∀ p ∈ splitChars sep cs, sep ∉ p := by
  induction cs with
  | nil => simp [splitChars]
  | cons c cs ih =>
    by_cases hc : c = sep
    · intro p hp
      simp only [splitChars, hc, if_true, List.mem_cons] at hp
      rcases hp with rfl | hp
      · simp
      · exact ih p hp
    · intro p hp
      obtain ⟨q, qs, h1, _⟩ := splitChars_join sep cs
      simp only [splitChars, hc, if_false, h1, List.mem_cons] at hp
      rcases hp with rfl | hp
      · have hq := ih q (by rw [h1]; exact List.mem_cons_self _ _)
        simp only [List.mem_cons, not_or]
        exact ⟨fun h => hc h.symm, hq⟩
      · exact ih p (by rw [h1]; exact List.mem_cons_of_mem _ hp)

theorem flatMap_mk (qs : List (List Char)) :
    (qs.map String.mk).flatMap (fun a => ",".data ++ a.data) =
      qs.flatMap (fun a => ',' :: a) := by
  induction qs with
  | nil => rfl
  | cons a l ih =>
    rw [List.map_cons, List.flatMap_cons, List.flatMap_cons, ih]
    rfl

/-- The pieces of `Split` at the commas, joined by commas, are the string. -/
theorem Split_intercalate (s : String) : ",".intercalate (Split s ',') = s := by
  obtain ⟨q, qs, h1, h2⟩ := splitChars_join ',' s.data
  apply String.ext
  unfold Split
  rw [h1, List.map_cons, String.intercalate, intercalate_go_data, flatMap_mk]
  exact h2

/-- No piece of `Split` at the commas holds a comma. -/
theorem Split_no_comma (s : String) : ∀ p ∈ Split s ',', ',' ∉ p.data := by
  intro p hp
  unfold Split at hp
  obtain ⟨q, hq, rfl⟩ := List.mem_map.1 hp
  exact splitChars_no_sep ',' s.data q hq

/-! ## Lemmas on the maps and on `addEnv` -/

theorem StringSet.insert_apply (m : StringSet) (k x : String) :
    m.insert k x = true ↔ x = k ∨ m x = true := by
  unfold StringSet.insert
  by_cases h : x = k <;> simp [h]

theorem StringSet.foldl_insert_apply {α : Type} (f : α → String) (l : List α)
    (m : StringSet) (x : String) :
    l.foldl (fun m a => m.insert (f a)) m x = true ↔ m x = true ∨ x ∈ l.map f := by
  induction l generalizing m with
  | nil => simp
  | cons a l ih =>
    rw [List.foldl_cons, ih, StringSet.insert_apply, List.map_cons, List.mem_cons]
    tauto

/-- The map `unsupport_envs` holds a name exactly when the toggle is not empty
and the name is one of its pieces. -/
theorem unsupportEnvs_iff (s n : String) :
    unsupportEnvs s n = true ↔ s ≠ "" ∧ n ∈ Split s ',' := by
  unfold unsupportEnvs
  by_cases hs : s = ""
  · simp [hs, StringSet.empty]
  · have h := StringSet.foldl_insert_apply id (Split s ',') StringSet.empty n
    simp only [id, List.map_id'] at h
    simp only [ne_eq, hs, not_false_eq_true, if_true, true_and]
    rw [h]
    simp [StringSet.empty]

/-- One call of `addEnv` that finds the name claimed or denied changes nothing. -/
theorem addEnv_skip (U : StringSet) (st : EnvState) (c : EnvVar)
    (h : st.keys c.Name = true ∨ U c.Name = true) : addEnv U st c = st := by
  unfold addEnv
  rcases h with h | h <;> simp [h]

/-- One call of `addEnv` on a free name appends the variable and claims the name. -/
theorem addEnv_add (U : StringSet) (st : EnvState) (c : EnvVar)
    (hk : st.keys c.Name = false) (hu : U c.Name = false) :
    addEnv U st c = { keys := st.keys.insert c.Name, envs := st.envs ++ [c] } := by
  unfold addEnv
  simp [hk, hu]

/-- What a run of `addEnv` over a list of candidates does to a state whose
`keys` holds exactly the names of `envs`. -/
theorem foldl_addEnv (U : StringSet) (cs : List EnvVar) (st : EnvState)
    (hk : ∀ n, st.keys n = true ↔ n ∈ st.envs.map EnvVar.Name) :
    ∃ ext, (cs.foldl (addEnv U) st).envs = st.envs ++ ext ∧
      (∀ e ∈ ext, e ∈ cs ∧ U e.Name = false ∧ e.Name ∉ st.envs.map EnvVar.Name) ∧
      (ext.map EnvVar.Name).Nodup ∧
      (∀ c ∈ cs, U c.Name = false → c.Name ∈ (st.envs ++ ext).map EnvVar.Name) ∧
      ((cs.map EnvVar.Name).Nodup → ∀ c ∈ cs, U c.Name = false →
        c.Name ∉ st.envs.map EnvVar.Name → c ∈ ext) := by
  induction cs generalizing st with
  | nil => exact ⟨[], by simp⟩
  | cons c cs ih =>
    by_cases h : st.keys c.Name = true ∨ U c.Name = true
    · obtain ⟨ext, h1, h2, h3, h4, h5⟩ := ih st hk
      refine ⟨ext, ?_, ?_, h3, ?_, ?_⟩
      · rw [List.foldl_cons, addEnv_skip U st c h, h1]
      · intro e he
        exact ⟨List.mem_cons_of_mem _ (h2 e he).1, (h2 e he).2⟩
      · intro x hx hux
        rcases List.mem_cons.1 hx with rfl | hx
        · rcases h with h | h
          · have := (hk x.Name).1 h
            simp only [List.map_append, List.mem_append]
            exact Or.inl this
          · rw [h] at hux; exact absurd hux (by simp)
        · exact h4 x hx hux
      · intro hnd x hx hux hxn
        rw [List.map_cons, List.nodup_cons] at hnd
        rcases List.mem_cons.1 hx with rfl | hx
        · rcases h with h | h
          · exact absurd ((hk x.Name).1 h) hxn
          · rw [h] at hux; exact absurd hux (by simp)
        · exact h5 hnd.2 x hx hux hxn
    · have hkf : st.keys c.Name = false := by
        cases hc : st.keys c.Name
        · rfl
        · exact absurd (Or.inl hc) h
      have huf : U c.Name = false := by
        cases hc : U c.Name
        · rfl
        · exact absurd (Or.inr hc) h
      have hcn : c.Name ∉ st.envs.map EnvVar.Name := by
        intro hmem
        have := (hk c.Name).2 hmem
        rw [hkf] at this
        exact absurd this (by simp)
      have hk2 : ∀ n, (EnvState.mk (st.keys.insert c.Name) (st.envs ++ [c])).keys n = true ↔
          n ∈ (EnvState.mk (st.keys.insert c.Name) (st.envs ++ [c])).envs.map EnvVar.Name := by
        intro n
        simp only [StringSet.insert_apply, List.map_append, List.mem_append, List.map_cons,
          List.map_nil, List.mem_singleton, hk n]
        tauto
      obtain ⟨ext, h1, h2, h3, h4, h5⟩ := ih _ hk2
      simp only [List.map_append, List.mem_append, List.map_cons, List.map_nil,
        List.mem_singleton, not_or] at h2 h4 h5
      refine ⟨c :: ext, ?_, ?_, ?_, ?_, ?_⟩
      · rw [List.foldl_cons, addEnv_add U st c hkf huf, h1]
        simp
      · intro e he
        rcases List.mem_cons.1 he with rfl | he
        · exact ⟨List.mem_cons_self _ _, huf, hcn⟩
        · exact ⟨List.mem_cons_of_mem _ (h2 e he).1, (h2 e he).2.1, (h2 e he).2.2.1⟩
      · rw [List.map_cons, List.nodup_cons]
        refine ⟨?_, h3⟩
        intro hmem
        obtain ⟨e, he, hen⟩ := List.mem_map.1 hmem
        exact (h2 e he).2.2.2 hen
      · intro x hx hux
        simp only [List.map_append, List.mem_append, List.map_cons, List.mem_cons]
        rcases List.mem_cons.1 hx with rfl | hx
        · exact Or.inr (Or.inl rfl)
        · rcases h4 x hx hux with (h | h) | h
          · exact Or.inl h
          · exact Or.inr (Or.inl h)
          · exact Or.inr (Or.inr h)
      · intro hnd x hx hux hxn
        rw [List.map_cons, List.nodup_cons] at hnd
        rcases List.mem_cons.1 hx with rfl | hx
        · exact List.mem_cons_self _ _
        · refine List.mem_cons_of_mem _ (h5 hnd.2 x hx hux ⟨hxn, ?_⟩)
          intro hxc
          exact hnd.1 (hxc ▸ List.mem_map_of_mem EnvVar.Name hx)

/-- The candidates `Envs` offers to `addEnv`, in order: the fixed set, then
the variables of the role. -/
theorem candidates_nodup {Config : Type} (v1 : V1) (rutils : Rutils Config) (kind : SpecKind)
    (config : Config) (feExternalServiceName namespace_ : String) :
    ((builtinEnvs ++ roleEnvs v1 rutils kind config feExternalServiceName namespace_).map
      EnvVar.Name).Nodup := by
  cases kind <;> simp [builtinEnvs, roleEnvs, COMPONENT_NAME, FE_SERVICE_NAME]

/-- The shape of the result of `Envs`: the base list, followed by candidates
that were neither claimed by the base list nor denied, each name once. -/
theorem Envs_shape {Config : Type} (v1 : V1) (rutils : Rutils Config) (getenv : String)
    (spec : SpecInterface) (config : Config) (feExternalServiceName namespace_ : String)
    (envs : List EnvVar) :
    ∃ ext, Envs v1 rutils getenv spec config feExternalServiceName namespace_ envs = envs ++ ext ∧
      (∀ e ∈ ext,
        e ∈ builtinEnvs ++ roleEnvs v1 rutils spec.kind config feExternalServiceName namespace_ ∧
        unsupportEnvs getenv e.Name = false ∧ e.Name ∉ envs.map EnvVar.Name) ∧
      (ext.map EnvVar.Name).Nodup ∧
      (∀ c ∈ builtinEnvs ++ roleEnvs v1 rutils spec.kind config feExternalServiceName namespace_,
        unsupportEnvs getenv c.Name = false → c.Name ∉ envs.map EnvVar.Name → c ∈ ext) := by
  have hk : ∀ n, (EnvState.mk
      (envs.foldl (fun keys env => keys.insert env.Name) StringSet.empty) envs).keys n = true ↔
      n ∈ (EnvState.mk
        (envs.foldl (fun keys env => keys.insert env.Name) StringSet.empty) envs).envs.map
        EnvVar.Name := by
    intro n
    simp only [StringSet.foldl_insert_apply EnvVar.Name envs StringSet.empty n, StringSet.empty]
    simp
  obtain ⟨ext, h1, h2, h3, _, h5⟩ := foldl_addEnv (unsupportEnvs getenv)
    (builtinEnvs ++ roleEnvs v1 rutils spec.kind config feExternalServiceName namespace_) _ hk
  refine ⟨ext, ?_, h2, h3, h5 (candidates_nodup v1 rutils spec.kind config _ _)⟩
  rw [List.foldl_append] at h1
  exact h1

/-! ## Envs: uniqueness, precedence, denylist -/

/-- C1, as the code has it: when the names of the caller-supplied base list
are pairwise distinct, the list `Envs` returns contains no two entries with
the same name, for every spec, config map, service name, namespace and value
of the denylist toggle. -/
theorem Envs_names_nodup_of_base_nodup {Config : Type} (v1 : V1) (rutils : Rutils Config)
    (getenv : String) (spec : SpecInterface) (config : Config)
    (feExternalServiceName namespace_ : String) (envs : List EnvVar)
    (hbase : (envs.map EnvVar.Name).Nodup) :
    ((Envs v1 rutils getenv spec config feExternalServiceName namespace_ envs).map
      EnvVar.Name).Nodup := by
  obtain ⟨ext, h1, h2, h3, _⟩ :=
    Envs_shape v1 rutils getenv spec config feExternalServiceName namespace_ envs
  rw [h1, List.map_append, List.nodup_append]
  refine ⟨hbase, h3, ?_⟩
  intro n hn hn2
  obtain ⟨e, he, rfl⟩ := List.mem_map.1 hn2
  exact (h2 e he).2.2 hn

/-- Witness of `Envs_names_nodup_of_base_nodup`: a base list of two distinct
names, one of them a built-in name. -/
theorem Envs_names_nodup_of_base_nodup_witness :
    (([{ Name := "POD_NAME", Value := "custom" }, { Name := "EXTRA", Value := "1" }] :
        List EnvVar).map EnvVar.Name).Nodup ∧
    ((Envs sampleV1 sampleRutils "" { kind := .StarRocksBeSpec } [] "svc" "ns"
        [{ Name := "POD_NAME", Value := "custom" }, { Name := "EXTRA", Value := "1" }]).map
      EnvVar.Name).Nodup :=
  ⟨by decide,
   Envs_names_nodup_of_base_nodup sampleV1 sampleRutils "" { kind := .StarRocksBeSpec } []
     "svc" "ns" [{ Name := "POD_NAME", Value := "custom" }, { Name := "EXTRA", Value := "1" }]
     (by decide)⟩

/-- C1, as stated, fails: a base list that holds the name A twice comes back
with the name A twice. -/
theorem Envs_duplicate_base_counterexample :
    ¬ ((Envs sampleV1 sampleRutils "" { kind := .StarRocksFeSpec } [] "svc" "ns"
        [{ Name := "A", Value := "1" }, { Name := "A", Value := "2" }]).map
      EnvVar.Name).Nodup := by
  decide

/-- C2: the base list is kept as the front of the result, entry for entry;
every entry behind it has a name the base list does not hold; and for the base
list that is the single literal POD_NAME = custom, the entries of the result
named POD_NAME are exactly that one. -/
theorem Envs_base_wins {Config : Type} (v1 : V1) (rutils : Rutils Config)
    (getenv : String) (spec : SpecInterface) (config : Config)
    (feExternalServiceName namespace_ : String) (envs : List EnvVar) :
    (Envs v1 rutils getenv spec config feExternalServiceName namespace_ envs).take envs.length
      = envs ∧
    (∀ e ∈ (Envs v1 rutils getenv spec config feExternalServiceName namespace_ envs).drop
        envs.length, e.Name ∉ envs.map EnvVar.Name) ∧
    (Envs v1 rutils getenv spec config feExternalServiceName namespace_
        [{ Name := "POD_NAME", Value := "custom" }]).filter (fun e => e.Name = "POD_NAME")
      = [{ Name := "POD_NAME", Value := "custom", ValueFrom := none }] := by
  refine ⟨?_, ?_, ?_⟩
  · obtain ⟨ext, h1, _⟩ :=
      Envs_shape v1 rutils getenv spec config feExternalServiceName namespace_ envs
    rw [h1, List.take_left]
  · obtain ⟨ext, h1, h2, _⟩ :=
      Envs_shape v1 rutils getenv spec config feExternalServiceName namespace_ envs
    rw [h1, List.drop_left]
    intro e he
    exact (h2 e he).2.2
  · obtain ⟨ext, h1, h2, _⟩ :=
      Envs_shape v1 rutils getenv spec config feExternalServiceName namespace_
        [{ Name := "POD_NAME", Value := "custom" }]
    rw [h1, List.filter_append]
    have hext : ext.filter (fun e => e.Name = "POD_NAME") = [] := by
      rw [List.filter_eq_nil_iff]
      intro e he
      have := (h2 e he).2.2
      simpa using this
    rw [hext]
    simp

/-- Witness of `Envs_base_wins`: with POD_NAME in the base list, the entry
POD_IP that `Envs` appends has a name the base list does not hold. -/
theorem Envs_base_wins_witness :
    (Envs sampleV1 sampleRutils "" { kind := .StarRocksFeSpec } [] "svc" "ns"
        [{ Name := "POD_NAME", Value := "custom" }]).take 1
      = [{ Name := "POD_NAME", Value := "custom" }] ∧
    "POD_IP" ∉ ["POD_NAME"] :=
  ⟨(Envs_base_wins sampleV1 sampleRutils "" { kind := .StarRocksFeSpec } [] "svc" "ns"
      [{ Name := "POD_NAME", Value := "custom" }]).1,
   (Envs_base_wins sampleV1 sampleRutils "" { kind := .StarRocksFeSpec } [] "svc" "ns"
      [{ Name := "POD_NAME", Value := "custom" }]).2.1
      { Name := "POD_IP", ValueFrom := some { FieldRef := some { FieldPath := "status.podIP" } } }
      (by decide)⟩

/-- C3, as the code has it: when no entry of the base list has a denylisted
name, no entry of the list `Envs` returns has one, for every value of the
toggle. -/
theorem Envs_no_denied_of_base_clean {Config : Type} (v1 : V1) (rutils : Rutils Config)
    (getenv : String) (spec : SpecInterface) (config : Config)
    (feExternalServiceName namespace_ : String) (envs : List EnvVar)
    (hbase : ∀ e ∈ envs, unsupportEnvs getenv e.Name = false) :
    ∀ e ∈ Envs v1 rutils getenv spec config feExternalServiceName namespace_ envs,
      unsupportEnvs getenv e.Name = false := by
  obtain ⟨ext, h1, h2, _⟩ :=
    Envs_shape v1 rutils getenv spec config feExternalServiceName namespace_ envs
  intro e he
  rw [h1, List.mem_append] at he
  rcases he with he | he
  · exact hbase e he
  · exact (h2 e he).2.1

/-- Witness of `Envs_no_denied_of_base_clean`: the toggle denies HOST_TYPE and
HOST_IP, the base list holds neither, and the entry POD_NAME of the result is
not denied. -/
theorem Envs_no_denied_of_base_clean_witness :
    (∀ e ∈ ([{ Name := "EXTRA", Value := "1" }] : List EnvVar),
      unsupportEnvs "HOST_TYPE,HOST_IP" e.Name = false) ∧
    unsupportEnvs "HOST_TYPE,HOST_IP" "POD_NAME" = false :=
  ⟨by decide,
   Envs_no_denied_of_base_clean sampleV1 sampleRutils "HOST_TYPE,HOST_IP"
     { kind := .StarRocksCnSpec } [] "svc" "ns" [{ Name := "EXTRA", Value := "1" }] (by decide)
     { Name := "POD_NAME", ValueFrom := some { FieldRef := some { FieldPath := "metadata.name" } } }
     (by decide)⟩

/-- C3, as stated, fails: with the toggle set to HOST_TYPE, a base list that
holds HOST_TYPE comes back with that entry, whose name is denylisted. -/
theorem Envs_denied_base_counterexample :
    ({ Name := "HOST_TYPE", Value := "IP" } : EnvVar) ∈
      Envs sampleV1 sampleRutils "HOST_TYPE" { kind := .StarRocksFeSpec } [] "svc" "ns"
        [{ Name := "HOST_TYPE", Value := "IP" }] ∧
    unsupportEnvs "HOST_TYPE" "HOST_TYPE" = true := by
  decide

/-- C4: the denylist holds exactly the pieces of a non-empty toggle value cut
at its commas (joined by commas the pieces give the value back, and no piece
holds a comma; the value HOST_TYPE, comma, space, POD_IP has the pieces
HOST_TYPE and space-POD_IP); no entry `Envs` places behind the base list has a denylisted
name; each of the five fixed variables POD_NAME, POD_IP, HOST_IP,
POD_NAMESPACE and HOST_TYPE, and each variable of the role of the spec, whose
name is neither denylisted nor held by the base list is placed behind the
base list; and with the toggle set to HOST_TYPE, an empty base list and a
FrontEnd spec, the result has no entry named HOST_TYPE and has an entry named
FE_SERVICE_NAME (and for a BackEnd spec with the query port 9030 it has the
entry FE_QUERY_PORT = 9030). -/
theorem Envs_denylist_suppresses_builtins {Config : Type} (v1 : V1) (rutils : Rutils Config)
    (getenv : String) (spec : SpecInterface) (config : Config)
    (feExternalServiceName namespace_ : String) (envs : List EnvVar) :
    (∀ n, unsupportEnvs getenv n = true ↔ getenv ≠ "" ∧ n ∈ Split getenv ',') ∧
    ",".intercalate (Split getenv ',') = getenv ∧
    (∀ piece ∈ Split getenv ',', ',' ∉ piece.data) ∧
    (∀ e ∈ (Envs v1 rutils getenv spec config feExternalServiceName namespace_ envs).drop
        envs.length, unsupportEnvs getenv e.Name = false) ∧
    (∀ c ∈ ([ { Name := "POD_NAME",
                ValueFrom := some { FieldRef := some { FieldPath := "metadata.name" } } },
              { Name := "POD_IP",
                ValueFrom := some { FieldRef := some { FieldPath := "status.podIP" } } },
              { Name := "HOST_IP",
                ValueFrom := some { FieldRef := some { FieldPath := "status.hostIP" } } },
              { Name := "POD_NAMESPACE",
                ValueFrom := some { FieldRef := some { FieldPath := "metadata.namespace" } } },
              { Name := "HOST_TYPE", Value := "FQDN" } ] : List EnvVar),
      unsupportEnvs getenv c.Name = false → c.Name ∉ envs.map EnvVar.Name →
      c ∈ (Envs v1 rutils getenv spec config feExternalServiceName namespace_ envs).drop
        envs.length) ∧
    (spec.kind = .StarRocksFeSpec →
      ∀ c ∈ ([ { Name := "COMPONENT_NAME", Value := v1.DEFAULT_FE },
               { Name := "FE_SERVICE_NAME",
                 Value := feExternalServiceName ++ "." ++ namespace_ } ] : List EnvVar),
      unsupportEnvs getenv c.Name = false → c.Name ∉ envs.map EnvVar.Name →
      c ∈ (Envs v1 rutils getenv spec config feExternalServiceName namespace_ envs).drop
        envs.length) ∧
    (spec.kind = .StarRocksBeSpec →
      ∀ c ∈ ([ { Name := "COMPONENT_NAME", Value := v1.DEFAULT_BE },
               { Name := "FE_SERVICE_NAME", Value := feExternalServiceName },
               { Name := "FE_QUERY_PORT",
                 Value := toString (rutils.GetPort config rutils.QUERY_PORT) } ] :
          List EnvVar),
      unsupportEnvs getenv c.Name = false → c.Name ∉ envs.map EnvVar.Name →
      c ∈ (Envs v1 rutils getenv spec config feExternalServiceName namespace_ envs).drop
        envs.length) ∧
    (spec.kind = .StarRocksCnSpec →
      ∀ c ∈ ([ { Name := "COMPONENT_NAME", Value := v1.DEFAULT_CN },
               { Name := "FE_SERVICE_NAME", Value := feExternalServiceName },
               { Name := "FE_QUERY_PORT",
                 Value := toString (rutils.GetPort config rutils.QUERY_PORT) } ] :
          List EnvVar),
      unsupportEnvs getenv c.Name = false → c.Name ∉ envs.map EnvVar.Name →
      c ∈ (Envs v1 rutils getenv spec config feExternalServiceName namespace_ envs).drop
        envs.length) ∧
    "HOST_TYPE" ∉ (Envs v1 rutils "HOST_TYPE" { spec with kind := .StarRocksFeSpec } config
        feExternalServiceName namespace_ []).map EnvVar.Name ∧
    "FE_SERVICE_NAME" ∈ (Envs v1 rutils "HOST_TYPE" { spec with kind := .StarRocksFeSpec } config
        feExternalServiceName namespace_ []).map EnvVar.Name ∧
    Split "HOST_TYPE, POD_IP" ',' = ["HOST_TYPE", " POD_IP"] ∧
    unsupportEnvs "HOST_TYPE, POD_IP" "HOST_TYPE" = true ∧
    unsupportEnvs "HOST_TYPE, POD_IP" "POD_IP" = false ∧
    ({ Name := "FE_QUERY_PORT", Value := "9030" } : EnvVar) ∈
      Envs sampleV1 sampleRutils "HOST_TYPE" { kind := .StarRocksBeSpec }
        [("query_port", 9030)] "svc" "ns" [] := by
  have happ : ∀ c ∈ builtinEnvs ++
        roleEnvs v1 rutils spec.kind config feExternalServiceName namespace_,
      unsupportEnvs getenv c.Name = false → c.Name ∉ envs.map EnvVar.Name →
      c ∈ (Envs v1 rutils getenv spec config feExternalServiceName namespace_ envs).drop
        envs.length := by
    obtain ⟨ext, h1, _, _, h4⟩ :=
      Envs_shape v1 rutils getenv spec config feExternalServiceName namespace_ envs
    rw [h1, List.drop_left]
    exact h4
  refine ⟨unsupportEnvs_iff getenv, Split_intercalate getenv, Split_no_comma getenv,
    ?_, ?_, ?_, ?_, ?_, ?_, ?_, by decide, by decide, by decide, by decide⟩
  · obtain ⟨ext, h1, h2, _⟩ :=
      Envs_shape v1 rutils getenv spec config feExternalServiceName namespace_ envs
    rw [h1, List.drop_left]
    intro e he
    exact (h2 e he).2.1
  · intro c hc
    exact happ c (List.mem_append_left _ hc)
  · intro hk c hc
    refine happ c (List.mem_append_right _ ?_)
    rw [hk]
    exact hc
  · intro hk c hc
    refine happ c (List.mem_append_right _ ?_)
    rw [hk]
    simpa [roleEnvs, FormatInt_ten, COMPONENT_NAME, FE_SERVICE_NAME] using hc
  · intro hk c hc
    refine happ c (List.mem_append_right _ ?_)
    rw [hk]
    simpa [roleEnvs, FormatInt_ten, COMPONENT_NAME, FE_SERVICE_NAME] using hc
  · obtain ⟨ext, h1, h2, _⟩ :=
      Envs_shape v1 rutils "HOST_TYPE" { spec with kind := .StarRocksFeSpec } config
        feExternalServiceName namespace_ []
    rw [h1, List.nil_append]
    intro hmem
    obtain ⟨e, he, hen⟩ := List.mem_map.1 hmem
    have hd := (h2 e he).2.1
    rw [hen] at hd
    exact absurd hd (by decide)
  · obtain ⟨ext, h1, _, _, h4⟩ :=
      Envs_shape v1 rutils "HOST_TYPE" { spec with kind := .StarRocksFeSpec } config
        feExternalServiceName namespace_ []
    rw [h1, List.nil_append]
    have hc : ({ Name := FE_SERVICE_NAME, Value := feExternalServiceName ++ "." ++ namespace_ } :
        EnvVar) ∈ ext := by
      apply h4
      · simp [roleEnvs]
      · show unsupportEnvs "HOST_TYPE" "FE_SERVICE_NAME" = false
        decide
      · simp
    exact List.mem_map.2 ⟨_, hc, rfl⟩

/-- Witness of `Envs_denylist_suppresses_builtins`: the toggle denies
HOST_TYPE and the base list holds POD_NAME; the appended POD_IP is not denied;
the fixed variable HOST_IP and the BackEnd variable FE_QUERY_PORT, neither
denied nor claimed, are appended; and the piece HOST_TYPE holds no comma. -/
theorem Envs_denylist_suppresses_builtins_witness :
    unsupportEnvs "HOST_TYPE" "POD_IP" = false ∧
    ({ Name := "HOST_IP",
       ValueFrom := some { FieldRef := some { FieldPath := "status.hostIP" } } } : EnvVar) ∈
      (Envs sampleV1 sampleRutils "HOST_TYPE" { kind := .StarRocksBeSpec }
        [("query_port", 9030)] "svc" "ns" [{ Name := "POD_NAME", Value := "custom" }]).drop 1 ∧
    ({ Name := "FE_QUERY_PORT", Value := "9030" } : EnvVar) ∈
      (Envs sampleV1 sampleRutils "HOST_TYPE" { kind := .StarRocksBeSpec }
        [("query_port", 9030)] "svc" "ns" [{ Name := "POD_NAME", Value := "custom" }]).drop 1 ∧
    ',' ∉ "HOST_TYPE".data :=
  ⟨(Envs_denylist_suppresses_builtins sampleV1 sampleRutils "HOST_TYPE"
      { kind := .StarRocksBeSpec } [("query_port", 9030)] "svc" "ns"
      [{ Name := "POD_NAME", Value := "custom" }]).2.2.2.1
      { Name := "POD_IP", ValueFrom := some { FieldRef := some { FieldPath := "status.podIP" } } }
      (by decide),
   (Envs_denylist_suppresses_builtins sampleV1 sampleRutils "HOST_TYPE"
      { kind := .StarRocksBeSpec } [("query_port", 9030)] "svc" "ns"
      [{ Name := "POD_NAME", Value := "custom" }]).2.2.2.2.1
      { Name := "HOST_IP",
        ValueFrom := some { FieldRef := some { FieldPath := "status.hostIP" } } }
      (by decide) (by decide) (by decide),
   (Envs_denylist_suppresses_builtins sampleV1 sampleRutils "HOST_TYPE"
      { kind := .StarRocksBeSpec } [("query_port", 9030)] "svc" "ns"
      [{ Name := "POD_NAME", Value := "custom" }]).2.2.2.2.2.2.1 rfl
      { Name := "FE_QUERY_PORT", Value := "9030" } (by decide) (by decide) (by decide),
   (Envs_denylist_suppresses_builtins sampleV1 sampleRutils "HOST_TYPE"
      { kind := .StarRocksBeSpec } [("query_port", 9030)] "svc" "ns"
      [{ Name := "POD_NAME", Value := "custom" }]).2.2.1 "HOST_TYPE" (by decide)⟩

/-- C5: with an empty base list and the toggle unset, `Envs` returns the five
fixed variables in order, followed for a FrontEnd spec by COMPONENT_NAME and
FE_SERVICE_NAME = service name, dot, namespace; for a BackEnd and for a
Compute spec by COMPONENT_NAME, FE_SERVICE_NAME = service name and
FE_QUERY_PORT = the query port of the config map as decimal text (the text
`toString` gives for an integer: the port 9030 reads 9030, the port -1 reads
-1, the port 2147483647 reads 2147483647); for a FrontEndProxy spec by
nothing. -/
theorem Envs_empty_base_empty_denylist {Config : Type} (v1 : V1) (rutils : Rutils Config)
    (spec : SpecInterface) (config : Config) (feExternalServiceName namespace_ : String) :
    Envs v1 rutils "" { spec with kind := .StarRocksFeSpec } config feExternalServiceName
        namespace_ [] =
      [ { Name := "POD_NAME",
          ValueFrom := some { FieldRef := some { FieldPath := "metadata.name" } } },
        { Name := "POD_IP", ValueFrom := some { FieldRef := some { FieldPath := "status.podIP" } } },
        { Name := "HOST_IP",
          ValueFrom := some { FieldRef := some { FieldPath := "status.hostIP" } } },
        { Name := "POD_NAMESPACE",
          ValueFrom := some { FieldRef := some { FieldPath := "metadata.namespace" } } },
        { Name := "HOST_TYPE", Value := "FQDN" },
        { Name := "COMPONENT_NAME", Value := v1.DEFAULT_FE },
        { Name := "FE_SERVICE_NAME", Value := feExternalServiceName ++ "." ++ namespace_ } ] ∧
    Envs v1 rutils "" { spec with kind := .StarRocksBeSpec } config feExternalServiceName
        namespace_ [] =
      [ { Name := "POD_NAME",
          ValueFrom := some { FieldRef := some { FieldPath := "metadata.name" } } },
        { Name := "POD_IP", ValueFrom := some { FieldRef := some { FieldPath := "status.podIP" } } },
        { Name := "HOST_IP",
          ValueFrom := some { FieldRef := some { FieldPath := "status.hostIP" } } },
        { Name := "POD_NAMESPACE",
          ValueFrom := some { FieldRef := some { FieldPath := "metadata.namespace" } } },
        { Name := "HOST_TYPE", Value := "FQDN" },
        { Name := "COMPONENT_NAME", Value := v1.DEFAULT_BE },
        { Name := "FE_SERVICE_NAME", Value := feExternalServiceName },
        { Name := "FE_QUERY_PORT",
          Value := toString (rutils.GetPort config rutils.QUERY_PORT) } ] ∧
    Envs v1 rutils "" { spec with kind := .StarRocksCnSpec } config feExternalServiceName
        namespace_ [] =
      [ { Name := "POD_NAME",
          ValueFrom := some { FieldRef := some { FieldPath := "metadata.name" } } },
        { Name := "POD_IP", ValueFrom := some { FieldRef := some { FieldPath := "status.podIP" } } },
        { Name := "HOST_IP",
          ValueFrom := some { FieldRef := some { FieldPath := "status.hostIP" } } },
        { Name := "POD_NAMESPACE",
          ValueFrom := some { FieldRef := some { FieldPath := "metadata.namespace" } } },
        { Name := "HOST_TYPE", Value := "FQDN" },
        { Name := "COMPONENT_NAME", Value := v1.DEFAULT_CN },
        { Name := "FE_SERVICE_NAME", Value := feExternalServiceName },
        { Name := "FE_QUERY_PORT",
          Value := toString (rutils.GetPort config rutils.QUERY_PORT) } ] ∧
    Envs v1 rutils "" { spec with kind := .StarRocksFeProxySpec } config feExternalServiceName
        namespace_ [] =
      [ { Name := "POD_NAME",
          ValueFrom := some { FieldRef := some { FieldPath := "metadata.name" } } },
        { Name := "POD_IP", ValueFrom := some { FieldRef := some { FieldPath := "status.podIP" } } },
        { Name := "HOST_IP",
          ValueFrom := some { FieldRef := some { FieldPath := "status.hostIP" } } },
        { Name := "POD_NAMESPACE",
          ValueFrom := some { FieldRef := some { FieldPath := "metadata.namespace" } } },
        { Name := "HOST_TYPE", Value := "FQDN" } ] ∧
    (Envs sampleV1 sampleRutils "" { kind := .StarRocksBeSpec } [("query_port", 9030)] "svc"
        "ns" []).getLast? = some { Name := "FE_QUERY_PORT", Value := "9030" } ∧
    (Envs sampleV1 sampleRutils "" { kind := .StarRocksCnSpec } [("query_port", -1)] "svc"
        "ns" []).getLast? = some { Name := "FE_QUERY_PORT", Value := "-1" } ∧
    (Envs sampleV1 sampleRutils "" { kind := .StarRocksCnSpec } [("query_port", 2147483647)]
        "svc" "ns" []).getLast? = some { Name := "FE_QUERY_PORT", Value := "2147483647" } := by
  refine ⟨rfl, ?_, ?_, rfl, by decide, by decide, by decide⟩
  · rw [← FormatInt_ten]
    rfl
  · rw [← FormatInt_ten]
    rfl

/-! ## Ports -/

/-- C6: `Ports` returns, by variant, a fixed list of names in a fixed order,
each with the port the lookup gives for the key of that entry: three entries
for FrontEnd, four for BackEnd, four for Compute, the one fixed proxy entry
for FrontEndProxy, and no entry for any other variant. -/
theorem Ports_dispatch {Config : Type} (rutils : Rutils Config) (spec : SpecInterface)
    (config : Config) :
    (Ports rutils { spec with kind := .StarRocksFeSpec } config).map
        (fun p => (p.Name, p.ContainerPort)) =
      [ ("http-port", rutils.GetPort config rutils.HTTP_PORT),
        ("rpc-port", rutils.GetPort config rutils.RPC_PORT),
        ("query-port", rutils.GetPort config rutils.QUERY_PORT) ] ∧
    (Ports rutils { spec with kind := .StarRocksBeSpec } config).map
        (fun p => (p.Name, p.ContainerPort)) =
      [ ("be-port", rutils.GetPort config rutils.BE_PORT),
        ("webserver-port", rutils.GetPort config rutils.WEBSERVER_PORT),
        ("heartbeat-port", rutils.GetPort config rutils.HEARTBEAT_SERVICE_PORT),
        ("brpc-port", rutils.GetPort config rutils.BRPC_PORT) ] ∧
    (Ports rutils { spec with kind := .StarRocksBeSpec } config).length = 4 ∧
    (Ports rutils { spec with kind := .StarRocksCnSpec } config).map
        (fun p => (p.Name, p.ContainerPort)) =
      [ ("thrift-port", rutils.GetPort config rutils.THRIFT_PORT),
        ("webserver-port", rutils.GetPort config rutils.WEBSERVER_PORT),
        ("heartbeat-port", rutils.GetPort config rutils.HEARTBEAT_SERVICE_PORT),
        ("brpc-port", rutils.GetPort config rutils.BRPC_PORT) ] ∧
    (Ports rutils { spec with kind := .StarRocksFeProxySpec } config).map
        (fun p => (p.Name, p.ContainerPort)) =
      [ (rutils.FE_PORXY_HTTP_PORT_NAME, rutils.FE_PROXY_HTTP_PORT) ] ∧
    (Ports rutils { spec with kind := .StarRocksFeProxySpec } config).length = 1 ∧
    Ports rutils { spec with kind := .other } config = [] := by
  refine ⟨?_, ?_, ?_, ?_, ?_, ?_, ?_⟩ <;> rfl

/-! ## Volumes and mounts -/

/-- The loop of `MountStorageVolumes`, started from any state. -/
theorem foldl_storageVolumes (svs : List StorageVolume) (st : StorageState) :
    (svs.foldl
      (fun st sv =>
        ({ vexist := st.vexist.insert sv.MountPath
           volumeMounts := st.volumeMounts ++
             [{ Name := sv.Name, MountPath := sv.MountPath, SubPath := sv.SubPath }]
           volumes := st.volumes ++
             [{ Name := sv.Name, VolumeSource := { PersistentVolumeClaim := some sv.Name } }] } :
          StorageState)) st).volumes =
      st.volumes ++ svs.map (fun sv =>
        ({ Name := sv.Name, VolumeSource := { PersistentVolumeClaim := some sv.Name } } :
          Volume)) ∧
    (svs.foldl
      (fun st sv =>
        ({ vexist := st.vexist.insert sv.MountPath
           volumeMounts := st.volumeMounts ++
             [{ Name := sv.Name, MountPath := sv.MountPath, SubPath := sv.SubPath }]
           volumes := st.volumes ++
             [{ Name := sv.Name, VolumeSource := { PersistentVolumeClaim := some sv.Name } }] } :
          StorageState)) st).volumeMounts =
      st.volumeMounts ++ svs.map (fun sv =>
        ({ Name := sv.Name, MountPath := sv.MountPath, SubPath := sv.SubPath } : VolumeMount)) ∧
    ∀ path, (svs.foldl
      (fun st sv =>
        ({ vexist := st.vexist.insert sv.MountPath
           volumeMounts := st.volumeMounts ++
             [{ Name := sv.Name, MountPath := sv.MountPath, SubPath := sv.SubPath }]
           volumes := st.volumes ++
             [{ Name := sv.Name, VolumeSource := { PersistentVolumeClaim := some sv.Name } }] } :
          StorageState)) st).vexist path = true ↔
      st.vexist path = true ∨ path ∈ svs.map StorageVolume.MountPath := by
  induction svs generalizing st with
  | nil => simp
  | cons sv svs ih =>
    simp only [List.foldl_cons, List.map_cons, List.mem_cons]
    obtain ⟨h1, h2, h3⟩ := ih
      { vexist := st.vexist.insert sv.MountPath
        volumeMounts := st.volumeMounts ++
          [{ Name := sv.Name, MountPath := sv.MountPath, SubPath := sv.SubPath }]
        volumes := st.volumes ++
          [{ Name := sv.Name, VolumeSource := { PersistentVolumeClaim := some sv.Name } }] }
    refine ⟨?_, ?_, ?_⟩
    · rw [h1]; simp
    · rw [h2]; simp
    · intro path
      rw [h3 path, StringSet.insert_apply]
      tauto

/-- C7: `MountStorageVolumes` returns one volume and one mount per storage
volume declaration, in input order; the name of the volume, the name of its
persistent claim and the name of the mount are the declared name, the mount
path and sub path are the declared ones, and the occupied-path set holds a
path exactly when it is the mount path of a declaration. -/
theorem MountStorageVolumes_verbatim (spec : SpecInterface) :
    (MountStorageVolumes spec).volumes =
      spec.GetStorageVolumes.map (fun sv =>
        ({ Name := sv.Name, VolumeSource := { PersistentVolumeClaim := some sv.Name } } :
          Volume)) ∧
    (MountStorageVolumes spec).volumeMounts =
      spec.GetStorageVolumes.map (fun sv =>
        ({ Name := sv.Name, MountPath := sv.MountPath, SubPath := sv.SubPath } : VolumeMount)) ∧
    (MountStorageVolumes spec).volumes.length = spec.GetStorageVolumes.length ∧
    (MountStorageVolumes spec).volumeMounts.length = spec.GetStorageVolumes.length ∧
    ∀ path, (MountStorageVolumes spec).vexist path = true ↔
      path ∈ spec.GetStorageVolumes.map StorageVolume.MountPath := by
  obtain ⟨h1, h2, h3⟩ := foldl_storageVolumes spec.GetStorageVolumes
    { volumes := [], volumeMounts := [], vexist := StringSet.empty }
  simp only [List.nil_append] at h1 h2
  refine ⟨h1, h2, ?_, ?_, ?_⟩
  · unfold MountStorageVolumes; rw [h1, List.length_map]
  · unfold MountStorageVolumes; rw [h2, List.length_map]
  · intro path
    unfold MountStorageVolumes
    rw [h3 path]
    simp [StringSet.empty]

/-- The suffix `getVolumeName` appends is the first four characters of the
hash, which is the whole hash when it has at most four. -/
theorem getVolumeName_eq (HashObject : MountInfo → String) (mountInfo : MountInfo) :
    getVolumeName HashObject mountInfo =
      mountInfo.Name ++ "-" ++ String.mk ((HashObject mountInfo).data.take 4) := by
  unfold getVolumeName
  by_cases h : (HashObject mountInfo).length > 4
  · simp [h]
  · have hle : (HashObject mountInfo).data.length ≤ 4 := by
      have : (HashObject mountInfo).length = (HashObject mountInfo).data.length := rfl
      omega
    simp only [h, if_false, List.take_of_length_le hle]

/-- The loop of `MountConfigMaps`, started from any pair of lists. -/
theorem MountConfigMaps_eq (HashObject : MountInfo → String) (volumes : List Volume)
    (volumeMounts : List VolumeMount) (references : List ConfigMapReference) :
    MountConfigMaps HashObject volumes volumeMounts references =
      (volumes ++ references.map (fun r =>
          ({ Name := getVolumeName HashObject r, VolumeSource := { ConfigMap := some r.Name } } :
            Volume)),
       volumeMounts ++ references.map (fun r =>
          ({ Name := getVolumeName HashObject r, MountPath := r.MountPath,
             SubPath := r.SubPath } : VolumeMount))) := by
  unfold MountConfigMaps
  induction references generalizing volumes volumeMounts with
  | nil => simp
  | cons r rs ih => rw [List.foldl_cons, ih]; simp

/-- The loop of `MountSecrets`, started from any pair of lists. -/
theorem MountSecrets_eq (HashObject : MountInfo → String) (volumes : List Volume)
    (volumeMounts : List VolumeMount) (references : List SecretReference) :
    MountSecrets HashObject volumes volumeMounts references =
      (volumes ++ references.map (fun r =>
          ({ Name := getVolumeName HashObject r, VolumeSource := { Secret := some r.Name } } :
            Volume)),
       volumeMounts ++ references.map (fun r =>
          ({ Name := getVolumeName HashObject r, MountPath := r.MountPath,
             SubPath := r.SubPath } : VolumeMount))) := by
  unfold MountSecrets
  induction references generalizing volumes volumeMounts with
  | nil => simp
  | cons r rs ih => rw [List.foldl_cons, ih]; simp

/-- C8: `MountConfigMaps` and `MountSecrets` return the incoming lists
followed by one volume and one mount per reference, in reference order; both
carry the name of the reference, a dash and the first four characters of the
hash of the reference; the volume is sourced from the name of the reference
without suffix; mount path and sub path are the ones of the reference; and
the names appended do not depend on the incoming lists. -/
theorem Mount_references_synthesized_names (HashObject : MountInfo → String)
    (volumes : List Volume) (volumeMounts : List VolumeMount) (references : List MountInfo) :
    MountConfigMaps HashObject volumes volumeMounts references =
      (volumes ++ references.map (fun r =>
          ({ Name := r.Name ++ "-" ++ String.mk ((HashObject r).data.take 4),
             VolumeSource := { ConfigMap := some r.Name } } : Volume)),
       volumeMounts ++ references.map (fun r =>
          ({ Name := r.Name ++ "-" ++ String.mk ((HashObject r).data.take 4),
             MountPath := r.MountPath, SubPath := r.SubPath } : VolumeMount))) ∧
    MountSecrets HashObject volumes volumeMounts references =
      (volumes ++ references.map (fun r =>
          ({ Name := r.Name ++ "-" ++ String.mk ((HashObject r).data.take 4),
             VolumeSource := { Secret := some r.Name } } : Volume)),
       volumeMounts ++ references.map (fun r =>
          ({ Name := r.Name ++ "-" ++ String.mk ((HashObject r).data.take 4),
             MountPath := r.MountPath, SubPath := r.SubPath } : VolumeMount))) ∧
    (∀ (volumes2 : List Volume) (volumeMounts2 : List VolumeMount),
      ((MountConfigMaps HashObject volumes volumeMounts references).1.drop volumes.length).map
          Volume.Name =
        ((MountConfigMaps HashObject volumes2 volumeMounts2 references).1.drop
          volumes2.length).map Volume.Name ∧
      ((MountSecrets HashObject volumes volumeMounts references).1.drop volumes.length).map
          Volume.Name =
        ((MountSecrets HashObject volumes2 volumeMounts2 references).1.drop
          volumes2.length).map Volume.Name) := by
  refine ⟨?_, ?_, ?_⟩
  · rw [MountConfigMaps_eq]
    simp only [getVolumeName_eq]
  · rw [MountSecrets_eq]
    simp only [getVolumeName_eq]
  · intro volumes2 volumeMounts2
    simp [MountConfigMaps_eq, MountSecrets_eq, List.drop_left]

/-! ## Probes -/

/-- The `int32` quotient by five of a value in the `int32` range never wraps. -/
theorem divInt32_five (t : Int) (hlo : -2 ^ 31 ≤ t) (hhi : t < 2 ^ 31) :
    divInt32 t 5 = some (Int.tdiv t 5) := by
  have hq : Int.tdiv t 5 = if 0 ≤ t then t / 5 else -((-t) / 5) := by
    split
    · rw [Int.tdiv_eq_ediv] <;> omega
    · have hneg : t = -(-t) := by omega
      rw [hneg, Int.neg_tdiv, Int.tdiv_eq_ediv]
      · simp
      · omega
      · omega
  have hw : wrapInt32 (Int.tdiv t 5) = Int.tdiv t 5 := by
    unfold wrapInt32
    rw [hq]
    split <;> omega
  unfold divInt32
  rw [hw]
  simp

/-- C9: `StartupProbe` returns a probe with an HTTP GET handler on the given
port and path and a period of 5 seconds; without a timeout the failure
threshold is 60; with a timeout t of the `int32` range it is t divided by 5,
truncated toward zero, so 30 gives 6; and for a non-negative multiple t of 5
the threshold times the period is t. -/
theorem StartupProbe_threshold (port : Int) (path : String) :
    StartupProbe none port path =
      some { ProbeHandler := { HTTPGet := some { Path := path, Port := port } },
             PeriodSeconds := 5, FailureThreshold := 60 } ∧
    (∀ t : Int, -2 ^ 31 ≤ t → t < 2 ^ 31 →
      StartupProbe (some t) port path =
        some { ProbeHandler := { HTTPGet := some { Path := path, Port := port } },
               PeriodSeconds := 5, FailureThreshold := Int.tdiv t 5 }) ∧
    StartupProbe (some 30) port path =
      some { ProbeHandler := { HTTPGet := some { Path := path, Port := port } },
             PeriodSeconds := 5, FailureThreshold := 6 } ∧
    (∀ t : Int, 0 ≤ t → t < 2 ^ 31 → 5 ∣ t →
      (StartupProbe (some t) port path).map (fun p => p.FailureThreshold * p.PeriodSeconds) =
        some t) := by
  have hgen : ∀ t : Int, -2 ^ 31 ≤ t → t < 2 ^ 31 →
      StartupProbe (some t) port path =
        some { ProbeHandler := { HTTPGet := some { Path := path, Port := port } },
               PeriodSeconds := 5, FailureThreshold := Int.tdiv t 5 } := by
    intro t hlo hhi
    unfold StartupProbe completeProbe
    simp only [divInt32_five t hlo hhi, Option.map_some', getProbe]
  refine ⟨rfl, hgen, ?_, ?_⟩
  · rw [hgen 30 (by norm_num) (by norm_num)]
    rfl
  · intro t h0 hhi hdvd
    rw [hgen t (by omega) hhi]
    simp only [Option.map_some', Option.some.injEq]
    exact Int.tdiv_mul_cancel hdvd

/-- Witness of `StartupProbe_threshold`: a timeout of -7 seconds gives the
threshold -1 (truncation toward zero), and a timeout of 45 seconds gives a
threshold whose product with the period is 45. -/
theorem StartupProbe_threshold_witness :
    StartupProbe (some (-7)) 8080 "/api/health" =
      some { ProbeHandler := { HTTPGet := some { Path := "/api/health", Port := 8080 } },
             PeriodSeconds := 5, FailureThreshold := -1 } ∧
    (StartupProbe (some 45) 8080 "/api/health").map
        (fun p => p.FailureThreshold * p.PeriodSeconds) = some 45 :=
  ⟨(StartupProbe_threshold 8080 "/api/health").2.1 (-7) (by decide) (by decide),
   (StartupProbe_threshold 8080 "/api/health").2.2.2 45 (by decide) (by decide) (by decide)⟩

/-! ## Security context -/

/-- C10: `ContainerSecurityContext` passes the user id and the group id
through, sets allowPrivilegeEscalation and readOnlyRootFilesystem to false,
sets runAsNonRoot to true exactly when the user id is present and not zero,
and leaves runAsNonRoot unset exactly when the user id is absent or zero; the
pair (0, 0) leaves it unset and the pair (1000, 1000) sets it to true. -/
theorem ContainerSecurityContext_fields (spec : SpecInterface) (userId groupId : Option Int) :
    (ContainerSecurityContext { spec with GetRunAsNonRoot := (userId, groupId) }).RunAsUser
      = userId ∧
    (ContainerSecurityContext { spec with GetRunAsNonRoot := (userId, groupId) }).RunAsGroup
      = groupId ∧
    (ContainerSecurityContext
      { spec with GetRunAsNonRoot := (userId, groupId) }).AllowPrivilegeEscalation = some false ∧
    (ContainerSecurityContext
      { spec with GetRunAsNonRoot := (userId, groupId) }).ReadOnlyRootFilesystem = some false ∧
    ((ContainerSecurityContext { spec with GetRunAsNonRoot := (userId, groupId) }).RunAsNonRoot
      = some true ↔ ∃ u, userId = some u ∧ u ≠ 0) ∧
    ((ContainerSecurityContext { spec with GetRunAsNonRoot := (userId, groupId) }).RunAsNonRoot
      = none ↔ userId = none ∨ userId = some 0) ∧
    (ContainerSecurityContext { spec with GetRunAsNonRoot := (some 0, some 0) }).RunAsNonRoot
      = none ∧
    (ContainerSecurityContext { spec with GetRunAsNonRoot := (some 1000, some 1000) }).RunAsNonRoot
      = some true := by
  refine ⟨rfl, rfl, rfl, rfl, ?_, ?_, rfl, rfl⟩
  · cases userId with
    | none => simp [ContainerSecurityContext]
    | some u => by_cases hu : u = 0 <;> simp [ContainerSecurityContext, hu]
  · cases userId with
    | none => simp [ContainerSecurityContext]
    | some u => by_cases hu : u = 0 <;> simp [ContainerSecurityContext, hu]

/-- C11: `PodSecurityContext` sets fsGroup to the group id, so to the given
value when it is present and to nothing when it is absent, whatever the user
id is, and always sets the group-change policy to OnRootMismatch. -/
theorem PodSecurityContext_fields (spec : SpecInterface) (userId groupId : Option Int)
    (g : Int) :
    (PodSecurityContext { spec with GetRunAsNonRoot := (userId, groupId) }).FSGroup = groupId ∧
    (PodSecurityContext { spec with GetRunAsNonRoot := (userId, some g) }).FSGroup = some g ∧
    (PodSecurityContext { spec with GetRunAsNonRoot := (userId, none) }).FSGroup = none ∧
    (PodSecurityContext { spec with GetRunAsNonRoot := (userId, groupId) }).FSGroupChangePolicy
      = some "OnRootMismatch" ∧
    (∀ userId2 : Option Int,
      PodSecurityContext { spec with GetRunAsNonRoot := (userId2, groupId) } =
        PodSecurityContext { spec with GetRunAsNonRoot := (userId, groupId) }) := by
  refine ⟨?_, rfl, rfl, rfl, fun _ => rfl⟩
  cases groupId <;> rfl

/-! ## Pod spec -/

/-- C12: `Spec` returns a pod specification whose only container is the given
one, whose volumes are the given list, whose service account is the one of
the spec when that is not empty and the default otherwise, whose termination
grace period is 120 seconds, whose automatic mounting of the service-account
token is false, and whose affinity, tolerations, image pull secrets, node
selector, host aliases and scheduler name are the ones of the spec. -/
theorem Spec_fields (spec : SpecInterface) (defaultServiceAccount : String)
    (container : Container) (volumes : List Volume) :
    (Spec spec defaultServiceAccount container volumes).Containers = [container] ∧
    (Spec spec defaultServiceAccount container volumes).Volumes = volumes ∧
    (spec.GetServiceAccount ≠ "" →
      (Spec spec defaultServiceAccount container volumes).ServiceAccountName
        = spec.GetServiceAccount) ∧
    (spec.GetServiceAccount = "" →
      (Spec spec defaultServiceAccount container volumes).ServiceAccountName
        = defaultServiceAccount) ∧
    (Spec spec defaultServiceAccount container volumes).TerminationGracePeriodSeconds
      = some 120 ∧
    (Spec spec defaultServiceAccount container volumes).AutomountServiceAccountToken
      = some false ∧
    (Spec spec defaultServiceAccount container volumes).Affinity = spec.GetAffinity ∧
    (Spec spec defaultServiceAccount container volumes).Tolerations = spec.GetTolerations ∧
    (Spec spec defaultServiceAccount container volumes).ImagePullSecrets
      = spec.GetImagePullSecrets ∧
    (Spec spec defaultServiceAccount container volumes).NodeSelector = spec.GetNodeSelector ∧
    (Spec spec defaultServiceAccount container volumes).HostAliases = spec.GetHostAliases ∧
    (Spec spec defaultServiceAccount container volumes).SchedulerName
      = spec.GetSchedulerName := by
  unfold Spec
  by_cases h : spec.GetServiceAccount = "" <;> simp [h, GetInt64ptr]

/-- Witness of `Spec_fields`: a spec with the account sa-fe keeps it, and a
spec without an account gets the default. -/
theorem Spec_fields_witness :
    (Spec { kind := .StarRocksFeSpec, GetServiceAccount := "sa-fe" } "starrocks"
        { Name := "fe" } []).ServiceAccountName = "sa-fe" ∧
    (Spec { kind := .StarRocksFeSpec } "starrocks" { Name := "fe" } []).ServiceAccountName
      = "starrocks" :=
  ⟨(Spec_fields { kind := .StarRocksFeSpec, GetServiceAccount := "sa-fe" } "starrocks"
      { Name := "fe" } []).2.2.1 (by decide),
   (Spec_fields { kind := .StarRocksFeSpec } "starrocks" { Name := "fe" } []).2.2.2.1 rfl⟩

/-! ## Legacy mounts -/

/-- C13: `MountConfigMapInfo` and the older `MountConfigMap` return both lists
unchanged when the config-map name or the resolve key is empty; when both are
non-empty they return the incoming lists with one volume and one mount
appended, both named by the config-map name itself, the volume sourced from
that config map and the mount at the given path with empty sub path. -/
theorem MountConfigMapInfo_legacy (volumes : List Volume) (volumeMounts : List VolumeMount)
    (cmInfo : ConfigMapInfo) (mountPath : String) :
    (cmInfo.ConfigMapName = "" ∨ cmInfo.ResolveKey = "" →
      MountConfigMapInfo volumes volumeMounts cmInfo mountPath = (volumes, volumeMounts) ∧
      MountVolumes.MountConfigMap volumes volumeMounts cmInfo mountPath
        = (volumes, volumeMounts)) ∧
    (cmInfo.ConfigMapName ≠ "" → cmInfo.ResolveKey ≠ "" →
      MountConfigMapInfo volumes volumeMounts cmInfo mountPath =
        (volumes ++ [{ Name := cmInfo.ConfigMapName,
                       VolumeSource := { ConfigMap := some cmInfo.ConfigMapName,
                                         Secret := none, PersistentVolumeClaim := none } }],
         volumeMounts ++
           [{ Name := cmInfo.ConfigMapName, MountPath := mountPath, SubPath := "" }]) ∧
      MountVolumes.MountConfigMap volumes volumeMounts cmInfo mountPath =
        (volumes ++ [{ Name := cmInfo.ConfigMapName,
                       VolumeSource := { ConfigMap := some cmInfo.ConfigMapName,
                                         Secret := none, PersistentVolumeClaim := none } }],
         volumeMounts ++
           [{ Name := cmInfo.ConfigMapName, MountPath := mountPath, SubPath := "" }])) := by
  refine ⟨?_, ?_⟩
  · intro h
    unfold MountConfigMapInfo MountVolumes.MountConfigMap
    rcases h with h | h <;> simp [h]
  · intro h1 h2
    unfold MountConfigMapInfo MountVolumes.MountConfigMap
    simp [h1, h2]

/-- Witness of `MountConfigMapInfo_legacy`: an info without resolve key mounts
nothing, and the info (fe-conf, fe.conf) mounts the volume fe-conf. -/
theorem MountConfigMapInfo_legacy_witness :
    MountConfigMapInfo [] [] { ConfigMapName := "fe-conf" } "/etc/fe" = ([], []) ∧
    MountConfigMapInfo [] [] { ConfigMapName := "fe-conf", ResolveKey := "fe.conf" } "/etc/fe" =
      ([{ Name := "fe-conf", VolumeSource := { ConfigMap := some "fe-conf" } }],
       [{ Name := "fe-conf", MountPath := "/etc/fe", SubPath := "" }]) :=
  ⟨((MountConfigMapInfo_legacy [] [] { ConfigMapName := "fe-conf" } "/etc/fe").1
      (Or.inr rfl)).1,
   ((MountConfigMapInfo_legacy [] [] { ConfigMapName := "fe-conf", ResolveKey := "fe.conf" }
      "/etc/fe").2 (by decide) (by decide)).1⟩

/-- The loop of `MountSecrets` of `mount_volumes.go`, started from any pair of
lists. -/
theorem MountSecretInfos_eq (volumes : List Volume) (volumeMounts : List VolumeMount)
    (secrets : List SecretInfo) :
    MountVolumes.MountSecrets volumes volumeMounts secrets =
      (volumes ++ secrets.map (fun secret =>
          ({ Name := secret.Name, VolumeSource := { Secret := some secret.Name } } : Volume)),
       volumeMounts ++ secrets.map (fun secret =>
          ({ Name := secret.Name, MountPath := secret.MountPath } : VolumeMount))) := by
  unfold MountVolumes.MountSecrets
  induction secrets generalizing volumes volumeMounts with
  | nil => simp
  | cons r rs ih => rw [List.foldl_cons, ih]; simp

/-- Pairing survives appending mounts that have a volume among the appended
volumes. -/
theorem Paired_append (volumes volumes2 : List Volume) (volumeMounts mounts2 : List VolumeMount)
    (h : Paired volumes volumeMounts)
    (h2 : ∀ m ∈ mounts2, ∃ v ∈ volumes2, v.Name = m.Name) :
    Paired (volumes ++ volumes2) (volumeMounts ++ mounts2) := by
  intro m hm
  rcases List.mem_append.1 hm with hm | hm
  · obtain ⟨v, hv, hvn⟩ := h m hm
    exact ⟨v, List.mem_append_left _ hv, hvn⟩
  · obtain ⟨v, hv, hvn⟩ := h2 m hm
    exact ⟨v, List.mem_append_right _ hv, hvn⟩

/-- Two maps over one list, to volumes and to mounts with the same names, give
mounts that all have a volume. -/
theorem map_pairs {α : Type} (l : List α) (f : α → Volume) (g : α → VolumeMount)
    (hfg : ∀ a, (f a).Name = (g a).Name) :
    ∀ m ∈ l.map g, ∃ v ∈ l.map f, v.Name = m.Name := by
  intro m hm
  obtain ⟨a, ha, rfl⟩ := List.mem_map.1 hm
  exact ⟨f a, List.mem_map_of_mem f ha, hfg a⟩

/-- C14: the lists `MountStorageVolumes` returns are paired; and each of
`MountConfigMaps`, `MountSecrets` (of spec.go and of mount_volumes.go),
`MountConfigMapInfo` and `MountConfigMap` returns paired lists when the
incoming lists are paired, and makes both lists longer by one same number. -/
theorem Mount_keeps_pairing (HashObject : MountInfo → String) (spec : SpecInterface)
    (volumes : List Volume) (volumeMounts : List VolumeMount) (references : List MountInfo)
    (secrets : List SecretInfo) (cmInfo : ConfigMapInfo) (mountPath : String) :
    Paired (MountStorageVolumes spec).volumes (MountStorageVolumes spec).volumeMounts ∧
    ((Paired volumes volumeMounts →
        Paired (MountConfigMaps HashObject volumes volumeMounts references).1
          (MountConfigMaps HashObject volumes volumeMounts references).2) ∧
      ∃ k, (MountConfigMaps HashObject volumes volumeMounts references).1.length
          = volumes.length + k ∧
        (MountConfigMaps HashObject volumes volumeMounts references).2.length
          = volumeMounts.length + k) ∧
    ((Paired volumes volumeMounts →
        Paired (MountSecrets HashObject volumes volumeMounts references).1
          (MountSecrets HashObject volumes volumeMounts references).2) ∧
      ∃ k, (MountSecrets HashObject volumes volumeMounts references).1.length
          = volumes.length + k ∧
        (MountSecrets HashObject volumes volumeMounts references).2.length
          = volumeMounts.length + k) ∧
    ((Paired volumes volumeMounts →
        Paired (MountVolumes.MountSecrets volumes volumeMounts secrets).1
          (MountVolumes.MountSecrets volumes volumeMounts secrets).2) ∧
      ∃ k, (MountVolumes.MountSecrets volumes volumeMounts secrets).1.length
          = volumes.length + k ∧
        (MountVolumes.MountSecrets volumes volumeMounts secrets).2.length
          = volumeMounts.length + k) ∧
    ((Paired volumes volumeMounts →
        Paired (MountConfigMapInfo volumes volumeMounts cmInfo mountPath).1
          (MountConfigMapInfo volumes volumeMounts cmInfo mountPath).2) ∧
      ∃ k, (MountConfigMapInfo volumes volumeMounts cmInfo mountPath).1.length
          = volumes.length + k ∧
        (MountConfigMapInfo volumes volumeMounts cmInfo mountPath).2.length
          = volumeMounts.length + k) ∧
    ((Paired volumes volumeMounts →
        Paired (MountVolumes.MountConfigMap volumes volumeMounts cmInfo mountPath).1
          (MountVolumes.MountConfigMap volumes volumeMounts cmInfo mountPath).2) ∧
      ∃ k, (MountVolumes.MountConfigMap volumes volumeMounts cmInfo mountPath).1.length
          = volumes.length + k ∧
        (MountVolumes.MountConfigMap volumes volumeMounts cmInfo mountPath).2.length
          = volumeMounts.length + k) := by
  refine ⟨?_, ⟨?_, ?_⟩, ⟨?_, ?_⟩, ⟨?_, ?_⟩, ⟨?_, ?_⟩, ⟨?_, ?_⟩⟩
  · obtain ⟨h1, h2, _⟩ := foldl_storageVolumes spec.GetStorageVolumes
      { volumes := [], volumeMounts := [], vexist := StringSet.empty }
    simp only [List.nil_append] at h1 h2
    unfold MountStorageVolumes
    rw [h1, h2]
    exact map_pairs _ _ _ (fun _ => rfl)
  · intro h
    rw [MountConfigMaps_eq]
    exact Paired_append _ _ _ _ h (map_pairs _ _ _ (fun _ => rfl))
  · exact ⟨references.length, by rw [MountConfigMaps_eq]; simp⟩
  · intro h
    rw [MountSecrets_eq]
    exact Paired_append _ _ _ _ h (map_pairs _ _ _ (fun _ => rfl))
  · exact ⟨references.length, by rw [MountSecrets_eq]; simp⟩
  · intro h
    rw [MountSecretInfos_eq]
    exact Paired_append _ _ _ _ h (map_pairs _ _ _ (fun _ => rfl))
  · exact ⟨secrets.length, by rw [MountSecretInfos_eq]; simp⟩
  · intro h
    unfold MountConfigMapInfo
    split
    · exact Paired_append _ _ _ _ h (by simp)
    · exact h
  · unfold MountConfigMapInfo
    split
    · exact ⟨1, by simp⟩
    · exact ⟨0, by simp⟩
  · intro h
    unfold MountVolumes.MountConfigMap
    split
    · exact Paired_append _ _ _ _ h (by simp)
    · exact h
  · unfold MountVolumes.MountConfigMap
    split
    · exact ⟨1, by simp⟩
    · exact ⟨0, by simp⟩

/-- Witness of `Mount_keeps_pairing`: onto the paired lists of one storage
volume, a config-map reference is mounted, and the result is paired. -/
theorem Mount_keeps_pairing_witness :
    Paired [{ Name := "data-0", VolumeSource := { PersistentVolumeClaim := some "data-0" } }]
      [{ Name := "data-0", MountPath := "/data" }] ∧
    Paired
      (MountConfigMaps sampleHash
        [{ Name := "data-0", VolumeSource := { PersistentVolumeClaim := some "data-0" } }]
        [{ Name := "data-0", MountPath := "/data" }]
        [{ Name := "conf", MountPath := "/etc/conf" }]).1
      (MountConfigMaps sampleHash
        [{ Name := "data-0", VolumeSource := { PersistentVolumeClaim := some "data-0" } }]
        [{ Name := "data-0", MountPath := "/data" }]
        [{ Name := "conf", MountPath := "/etc/conf" }]).2 :=
  ⟨by decide,
   (Mount_keeps_pairing sampleHash { kind := .StarRocksFeSpec }
      [{ Name := "data-0", VolumeSource := { PersistentVolumeClaim := some "data-0" } }]
      [{ Name := "data-0", MountPath := "/data" }]
      [{ Name := "conf", MountPath := "/etc/conf" }] [] {} "/etc/fe").2.1.1 (by decide)⟩

/-- C15: duplicate synthesized names are not detected.  For every hash and
every reference, `MountConfigMaps` on the list that holds the reference twice
returns two volumes of one name, and so does `MountSecrets` run after
`MountConfigMaps` on a secret reference with the fields of the config-map
reference; the functions return the two lists and nothing else, so no error
is reported.  A concrete case: the reference (conf, /etc/conf), twice. -/
theorem Mount_duplicate_names_undetected (HashObject : MountInfo → String) (r : MountInfo) :
    ¬ ((MountConfigMaps HashObject [] [] [r, r]).1.map Volume.Name).Nodup ∧
    ¬ ((MountSecrets HashObject (MountConfigMaps HashObject [] [] [r]).1
          (MountConfigMaps HashObject [] [] [r]).2 [r]).1.map Volume.Name).Nodup ∧
    (MountConfigMaps sampleHash [] []
        [{ Name := "conf", MountPath := "/etc/conf" },
         { Name := "conf", MountPath := "/etc/conf" }]).1.map Volume.Name
      = ["conf-/etc", "conf-/etc"] := by
  refine ⟨?_, ?_, by decide⟩
  · rw [MountConfigMaps_eq]
    simp
  · rw [MountConfigMaps_eq, MountSecrets_eq]
    simp

/-! ## Envs: the denylist as a set of pieces, idempotence -/

/-- A run of `addEnv` reads the denylist at the names of the candidates only. -/
theorem foldl_addEnv_congr (U U2 : StringSet) (cs : List EnvVar) (st : EnvState)
    (h : ∀ c ∈ cs, U c.Name = U2 c.Name) :
    cs.foldl (addEnv U) st = cs.foldl (addEnv U2) st := by
  induction cs generalizing st with
  | nil => rfl
  | cons c cs ih =>
    have hc : addEnv U st c = addEnv U2 st c := by
      unfold addEnv
      rw [h c (List.mem_cons_self _ _)]
    rw [List.foldl_cons, List.foldl_cons, hc]
    exact ih _ (fun x hx => h x (List.mem_cons_of_mem _ hx))

/-- Two toggle values that deny the same candidates give the same result. -/
theorem Envs_congr {Config : Type} (v1 : V1) (rutils : Rutils Config) (s s2 : String)
    (spec : SpecInterface) (config : Config) (feExternalServiceName namespace_ : String)
    (envs : List EnvVar)
    (h : ∀ c ∈ builtinEnvs ++ roleEnvs v1 rutils spec.kind config feExternalServiceName namespace_,
      unsupportEnvs s c.Name = unsupportEnvs s2 c.Name) :
    Envs v1 rutils s spec config feExternalServiceName namespace_ envs =
      Envs v1 rutils s2 spec config feExternalServiceName namespace_ envs := by
  unfold Envs
  simp only
  rw [← List.foldl_append, ← List.foldl_append,
    foldl_addEnv_congr (unsupportEnvs s) (unsupportEnvs s2) _ _ h]

/-- No candidate of `Envs` has a blank name. -/
theorem candidates_not_blank {Config : Type} (v1 : V1) (rutils : Rutils Config) (kind : SpecKind)
    (config : Config) (feExternalServiceName namespace_ : String) :
    ∀ n ∈ (builtinEnvs ++ roleEnvs v1 rutils kind config feExternalServiceName namespace_).map
      EnvVar.Name, ¬ Blank n := by
  cases kind
  · show ∀ n ∈ ["POD_NAME", "POD_IP", "HOST_IP", "POD_NAMESPACE", "HOST_TYPE",
      "COMPONENT_NAME", "FE_SERVICE_NAME"], ¬ Blank n
    decide
  · show ∀ n ∈ ["POD_NAME", "POD_IP", "HOST_IP", "POD_NAMESPACE", "HOST_TYPE",
      "COMPONENT_NAME", "FE_SERVICE_NAME", "FE_QUERY_PORT"], ¬ Blank n
    decide
  · show ∀ n ∈ ["POD_NAME", "POD_IP", "HOST_IP", "POD_NAMESPACE", "HOST_TYPE",
      "COMPONENT_NAME", "FE_SERVICE_NAME", "FE_QUERY_PORT"], ¬ Blank n
    decide
  · show ∀ n ∈ ["POD_NAME", "POD_IP", "HOST_IP", "POD_NAMESPACE", "HOST_TYPE"], ¬ Blank n
    decide
  · show ∀ n ∈ ["POD_NAME", "POD_IP", "HOST_IP", "POD_NAMESPACE", "HOST_TYPE"], ¬ Blank n
    decide

/-- C16, as the code has it: for a toggle value that is not empty the denylist
is exactly the set of pieces of the value cut at the commas, untrimmed (the
pieces joined by commas give the value back and no piece holds a comma; so
the value of space, a, comma, b, space, two commas, tab, c has the pieces
space-a, b-space, the empty piece and tab-c); for the empty value, which is
also what an unset toggle reads as, the denylist is empty; and for every
toggle value whose pieces are all blank, `Envs` returns what it returns for
the unset toggle, for every spec and base list. -/
theorem Envs_blank_denylist_entries {Config : Type} (v1 : V1) (rutils : Rutils Config)
    (s : String) (spec : SpecInterface) (config : Config)
    (feExternalServiceName namespace_ : String) (envs : List EnvVar) :
    (s ≠ "" → ∀ n, unsupportEnvs s n = true ↔ n ∈ Split s ',') ∧
    ",".intercalate (Split s ',') = s ∧
    (∀ piece ∈ Split s ',', ',' ∉ piece.data) ∧
    Split " a,b ,,\tc" ',' = [" a", "b ", "", "\tc"] ∧
    unsupportEnvs " HOST_TYPE,POD_IP " "HOST_TYPE" = false ∧
    unsupportEnvs " HOST_TYPE,POD_IP " " HOST_TYPE" = true ∧
    (∀ n, unsupportEnvs "" n = false) ∧
    ((∀ piece ∈ Split s ',', Blank piece) →
      Envs v1 rutils s spec config feExternalServiceName namespace_ envs =
        Envs v1 rutils "" spec config feExternalServiceName namespace_ envs) := by
  refine ⟨?_, Split_intercalate s, Split_no_comma s, by decide, by decide, by decide, ?_, ?_⟩
  · intro hs n
    rw [unsupportEnvs_iff]
    simp [hs]
  · intro n
    cases h : unsupportEnvs "" n
    · rfl
    · exact absurd ((unsupportEnvs_iff "" n).1 h).1 (by simp)
  · intro hblank
    apply Envs_congr
    intro c hc
    have hnb := candidates_not_blank v1 rutils spec.kind config feExternalServiceName
      namespace_ c.Name (List.mem_map_of_mem EnvVar.Name hc)
    have h1 : unsupportEnvs s c.Name = false := by
      cases h : unsupportEnvs s c.Name
      · rfl
      · exact absurd (hblank _ ((unsupportEnvs_iff s c.Name).1 h).2) hnb
    have h2 : unsupportEnvs "" c.Name = false := by
      cases h : unsupportEnvs "" c.Name
      · rfl
      · exact absurd ((unsupportEnvs_iff "" c.Name).1 h).1 (by simp)
    rw [h1, h2]

/-- Witness of `Envs_blank_denylist_entries`: the toggle value HOST_TYPE, then
a comma and a space, has the pieces HOST_TYPE and one space, neither with a
comma; and the toggle value of a space, a comma, a tab and a vertical tab, a
comma, a no-break space and a comma has blank pieces only. -/
theorem Envs_blank_denylist_entries_witness :
    (unsupportEnvs "HOST_TYPE, " " " = true ↔ " " ∈ Split "HOST_TYPE, " ',') ∧
    ',' ∉ " ".data ∧
    Envs sampleV1 sampleRutils " ,\t\x0b,\u00a0," { kind := .StarRocksBeSpec } [] "svc" "ns"
        [{ Name := "EXTRA", Value := "1" }] =
      Envs sampleV1 sampleRutils "" { kind := .StarRocksBeSpec } [] "svc" "ns"
        [{ Name := "EXTRA", Value := "1" }] :=
  ⟨(Envs_blank_denylist_entries sampleV1 sampleRutils "HOST_TYPE, "
      { kind := .StarRocksBeSpec } [] "svc" "ns" []).1 (by decide) " ",
   (Envs_blank_denylist_entries sampleV1 sampleRutils "HOST_TYPE, "
      { kind := .StarRocksBeSpec } [] "svc" "ns" []).2.2.1 " " (by decide),
   (Envs_blank_denylist_entries sampleV1 sampleRutils " ,\t\x0b,\u00a0,"
      { kind := .StarRocksBeSpec } [] "svc" "ns"
      [{ Name := "EXTRA", Value := "1" }]).2.2.2.2.2.2.2 (by decide)⟩

/-- C16, as stated, fails at the empty toggle value: cutting the empty string
at the commas gives one piece, the empty string, and the denylist the code
builds for the empty value does not hold it. -/
theorem unsupportEnvs_empty_toggle_counterexample :
    "" ∈ Split "" ',' ∧ unsupportEnvs "" "" = false := by
  decide

/-- C18: when the entries of the base list have pairwise distinct names, the
entries of the list `Envs` returns have pairwise distinct names, for every
spec, config map, service name, namespace and toggle value. -/
theorem Envs_preserves_pairwise_distinct {Config : Type} (v1 : V1) (rutils : Rutils Config)
    (getenv : String) (spec : SpecInterface) (config : Config)
    (feExternalServiceName namespace_ : String) (envs : List EnvVar)
    (hbase : envs.Pairwise (fun a b => a.Name ≠ b.Name)) :
    (Envs v1 rutils getenv spec config feExternalServiceName namespace_ envs).Pairwise
      (fun a b => a.Name ≠ b.Name) := by
  obtain ⟨ext, h1, h2, h3, _⟩ :=
    Envs_shape v1 rutils getenv spec config feExternalServiceName namespace_ envs
  rw [h1, List.pairwise_append]
  refine ⟨hbase, ?_, ?_⟩
  · exact List.pairwise_map.1 h3
  · intro a ha b hb hab
    exact (h2 b hb).2.2 (hab ▸ List.mem_map_of_mem EnvVar.Name ha)

/-- Witness of `Envs_preserves_pairwise_distinct`: a base list of two entries
with distinct names, one of them the built-in name HOST_IP. -/
theorem Envs_preserves_pairwise_distinct_witness :
    ([{ Name := "HOST_IP", Value := "10.0.0.1" }, { Name := "TZ", Value := "UTC" }] :
        List EnvVar).Pairwise (fun a b => a.Name ≠ b.Name) ∧
    (Envs sampleV1 sampleRutils "POD_IP" { kind := .StarRocksCnSpec } [] "svc" "ns"
        [{ Name := "HOST_IP", Value := "10.0.0.1" }, { Name := "TZ", Value := "UTC" }]).Pairwise
      (fun a b => a.Name ≠ b.Name) :=
  ⟨by decide,
   Envs_preserves_pairwise_distinct sampleV1 sampleRutils "POD_IP" { kind := .StarRocksCnSpec }
     [] "svc" "ns"
     [{ Name := "HOST_IP", Value := "10.0.0.1" }, { Name := "TZ", Value := "UTC" }]
     (by decide)⟩

/-- Every candidate that is not denied has its name in the result of `Envs`. -/
theorem Envs_covers {Config : Type} (v1 : V1) (rutils : Rutils Config) (getenv : String)
    (spec : SpecInterface) (config : Config) (feExternalServiceName namespace_ : String)
    (envs : List EnvVar) :
    ∀ c ∈ builtinEnvs ++ roleEnvs v1 rutils spec.kind config feExternalServiceName namespace_,
      unsupportEnvs getenv c.Name = false →
      c.Name ∈ (Envs v1 rutils getenv spec config feExternalServiceName namespace_ envs).map
        EnvVar.Name := by
  have hk : ∀ n, (EnvState.mk
      (envs.foldl (fun keys env => keys.insert env.Name) StringSet.empty) envs).keys n = true ↔
      n ∈ (EnvState.mk
        (envs.foldl (fun keys env => keys.insert env.Name) StringSet.empty) envs).envs.map
        EnvVar.Name := by
    intro n
    simp only [StringSet.foldl_insert_apply EnvVar.Name envs StringSet.empty n, StringSet.empty]
    simp
  obtain ⟨ext, h1, _, _, h4, _⟩ := foldl_addEnv (unsupportEnvs getenv)
    (builtinEnvs ++ roleEnvs v1 rutils spec.kind config feExternalServiceName namespace_) _ hk
  rw [List.foldl_append] at h1
  intro c hc hu
  have hE : Envs v1 rutils getenv spec config feExternalServiceName namespace_ envs
      = envs ++ ext := h1
  rw [hE]
  exact h4 c hc hu

/-- C19: `Envs` run on its own result, with the other arguments and the toggle
unchanged, returns that result unchanged. -/
theorem Envs_idempotent {Config : Type} (v1 : V1) (rutils : Rutils Config)
    (getenv : String) (spec : SpecInterface) (config : Config)
    (feExternalServiceName namespace_ : String) (envs : List EnvVar) :
    Envs v1 rutils getenv spec config feExternalServiceName namespace_
        (Envs v1 rutils getenv spec config feExternalServiceName namespace_ envs) =
      Envs v1 rutils getenv spec config feExternalServiceName namespace_ envs := by
  obtain ⟨ext, h1, h2, _⟩ :=
    Envs_shape v1 rutils getenv spec config feExternalServiceName namespace_
      (Envs v1 rutils getenv spec config feExternalServiceName namespace_ envs)
  have hnil : ext = [] := by
    apply List.eq_nil_iff_forall_not_mem.2
    intro e he
    obtain ⟨hc, hu, hn⟩ := h2 e he
    exact hn (Envs_covers v1 rutils getenv spec config feExternalServiceName namespace_ envs
      e hc hu)
  rw [h1, hnil, List.append_nil]

/-! ## Collisions of synthesized names -/

/-- C20: for a hash whose output always has at least four characters, two
references with different names get different volume names, whatever their
mount paths and sub paths; for the hash `shortHash`, whose outputs are
shorter, the references named a and a-b get the same volume name. -/
theorem getVolumeName_distinct_names :
    (∀ HashObject : MountInfo → String, (∀ m, 4 ≤ (HashObject m).length) →
      ∀ m1 m2 : MountInfo, m1.Name ≠ m2.Name →
        getVolumeName HashObject m1 ≠ getVolumeName HashObject m2) ∧
    (({ Name := "a", MountPath := "/x" } : MountInfo).Name ≠
        ({ Name := "a-b", MountPath := "/x" } : MountInfo).Name ∧
      getVolumeName shortHash { Name := "a", MountPath := "/x" } =
        getVolumeName shortHash { Name := "a-b", MountPath := "/x" }) := by
  refine ⟨?_, by decide, by decide⟩
  intro HashObject hlen m1 m2 hne heq
  apply hne
  rw [getVolumeName_eq, getVolumeName_eq] at heq
  have hd := congrArg String.data heq
  simp only [String.data_append] at hd
  have hl1 : ((HashObject m1).data.take 4).length = 4 := by
    have := hlen m1
    rw [List.length_take]
    exact Nat.min_eq_left this
  have hl2 : ((HashObject m2).data.take 4).length = 4 := by
    have := hlen m2
    rw [List.length_take]
    exact Nat.min_eq_left this
  have h1 := (List.append_inj' hd (by rw [hl1, hl2])).1
  have h2 := (List.append_inj' h1 rfl).1
  exact String.ext h2

/-- Witness of `getVolumeName_distinct_names`: under the hash that is always
abcd, the references named x and y get different volume names. -/
theorem getVolumeName_distinct_names_witness :
    getVolumeName (fun _ => "abcd") { Name := "x", MountPath := "/p" } ≠
      getVolumeName (fun _ => "abcd") { Name := "y", MountPath := "/p" } :=
  getVolumeName_distinct_names.1 (fun _ => "abcd") (fun _ => (by decide : 4 ≤ "abcd".length))
    { Name := "x", MountPath := "/p" } { Name := "y", MountPath := "/p" } (by decide)

/-! ## Ports: the protocol field -/

/-- C21: for every spec and config map, every entry `Ports` returns carries
the protocol TCP, except the first entry of the BackEnd variant, be-port,
whose protocol field is left empty: the protocols are three times TCP for
FrontEnd; empty, then three times TCP for BackEnd; four times TCP for
Compute; once TCP for FrontEndProxy; and there is no entry for another
variant. -/
theorem Ports_protocols {Config : Type} (rutils : Rutils Config) (spec : SpecInterface)
    (config : Config) :
    (Ports rutils spec config).map ContainerPort.Protocol =
      (match spec.kind with
        | .StarRocksFeSpec => ["TCP", "TCP", "TCP"]
        | .StarRocksBeSpec => ["", "TCP", "TCP", "TCP"]
        | .StarRocksCnSpec => ["TCP", "TCP", "TCP", "TCP"]
        | .StarRocksFeProxySpec => ["TCP"]
        | .other => []) ∧
    (Ports rutils { spec with kind := .StarRocksBeSpec } config).head? =
      some { Name := "be-port", ContainerPort := rutils.GetPort config rutils.BE_PORT,
             Protocol := "" } ∧
    ((Ports rutils { spec with kind := .StarRocksBeSpec } config).tail.map
        ContainerPort.Protocol = ["TCP", "TCP", "TCP"]) := by
  refine ⟨?_, rfl, rfl⟩
  unfold Ports
  cases spec.kind <;> rfl


end Pod

/-! ## The migration tool: how the target version is classified -/

namespace FormatValues

/-- C17, at the failing input: the target v1.10.0 lies above v1.8.0 as a
version, yet as a Go string it compares below NEW_VERSION.  So for the target
v1.10.0 `Do` writes nothing, whatever the reader and the writers hold, where
for the target v1.9.0 it writes an operator part to w1 and a starrocks part
to w2; and in general `Do` writes the two parts exactly when the target does
not compare below NEW_VERSION as a string. -/
theorem Do_v1_10_0_classified_old (reader chartVersion w1 w2 : String) :
    versionString 1 10 0 = "v1.10.0" ∧
    stringLess "v1.10.0" NEW_VERSION = true ∧
    stringGreaterEq "v1.10.0" NEW_VERSION = false ∧
    Do sampleParse sampleUnmarshal sampleMarshal reader "v1.10.0" w1 w2 =
      { w1 := w1, w2 := w2, status := .ok } ∧
    Do sampleParse sampleUnmarshal sampleMarshal reader "v1.9.0" w1 w2 =
      { w1 := w1 ++ "operator: {}\n", w2 := w2 ++ "starrocks: {}\n", status := .ok } ∧
    Do sampleParse sampleUnmarshal sampleMarshal "timeZone: UTC\n" "v1.10.0" "" "" =
      { w1 := "", w2 := "", status := .ok } ∧
    Do sampleParse sampleUnmarshal sampleMarshal reader chartVersion w1 w2 =
      (if stringLess chartVersion NEW_VERSION = true then
        { w1 := w1, w2 := w2, status := .ok }
      else
        { w1 := w1 ++ "operator: {}\n", w2 := w2 ++ "starrocks: {}\n", status := .ok }) := by
  refine ⟨by decide, by decide, by decide, rfl, rfl, rfl, ?_⟩
  by_cases h : stringLess chartVersion NEW_VERSION = true
  · simp [Do, viperReadConfig, ReadAll, sampleParse, sampleUnmarshal, index, Yaml.isNil, h]
  · simp [Do, viperReadConfig, ReadAll, sampleParse, sampleUnmarshal, index, Yaml.isNil, h]
    rfl

end FormatValues
